import Mathlib

/-!
Verification of the detection-and-quantity pipeline of the
bauzeichnung-aufmass-tool repository, as a shallow embedding in Lean 4.

Conventions of the embedding:
* Python numbers (floats and ints used in measurements) are modelled as ℚ;
  Python ints used as pixel coordinates are modelled as ℤ or ℕ following the
  direction in which the source uses them.
* A numpy binary image (`binary = np.where(img < 128, 1, 0)`) is modelled as a
  `Bitmap`: width, height and a natural number whose bit `y * width + x` is
  set exactly when `binary[y, x] == 1`.  A numpy boolean `visited` mask is
  modelled the same way and threaded through the loops that mutate it.
* Python `dict` objects keyed by strings are modelled either as association
  lists (element dimensions and properties) or as functions
  `String → Option _` (the summary of the quantity calculator).
* Python strings handed to `parse_scale` are modelled as `List Char`;
  `str.split` and the decimal fragment of `float()` are modelled explicitly.
* `round(x, n)` is modelled by `py_round` (round half to even, as Python's
  `round` behaves on exactly representable values).
* Loops of the source that are `while` loops are modelled with an explicit
  fuel argument; at every use the fuel is chosen large enough that it can
  never be exhausted (a decreasing-measure argument is given in a comment at
  the use site), so the Lean function agrees with the Python loop.

The `semireducible` attributes below only restore kernel-style evaluation of
the rational-number primitives for `decide`; they do not affect soundness.
-/

set_option allowUnsafeReducibility true
attribute [semireducible] Rat.mul Rat.add Rat.sub Rat.inv Rat.ofScientific

namespace Aufmass

/-- Python `round` tie-breaking: round half to even on an integer scale.
Written with `Int.fdiv` (floor division) so that it evaluates in the kernel. -/
def rhe (q : ℚ) : ℤ :=
  let f := q.num.fdiv q.den
  let r := q - f
  if r < 1/2 then f
  else if r = 1/2 then (if f % 2 = 0 then f else f + 1)
  else f + 1

/-- Model of Python `round(q, n)` for exact rational values. -/
def py_round (q : ℚ) (n : ℕ) : ℚ := (rhe (q * 10 ^ n) : ℚ) / 10 ^ n

/-- Python `d.get(key, default)` on a dimensions dictionary. -/
def dget (d : List (String × ℚ)) (k : String) (dflt : ℚ) : ℚ :=
  (d.lookup k).getD dflt

/-- Python `d.get(key, default)` on a properties dictionary. -/
def pget (p : List (String × String)) (k : String) (dflt : String) : String :=
  (p.lookup k).getD dflt

/-- Rendering of an optional subtype inside a Python f-string
(`None` prints as `"None"`). -/
def optStr (o : Option String) : String := o.getD "None"

/-- Model of Python `s.split(sep)` for a one-character separator. -/
def pySplit (sep : Char) : List Char → List (List Char)
  | [] => [[]]
  | c :: rest =>
    if c = sep then [] :: pySplit sep rest
    else
      match pySplit sep rest with
      | h :: t => (c :: h) :: t
      | [] => [[c]]

/-- Numeric value of a digit string (used only on all-digit strings). -/
def digitsVal (cs : List Char) : ℕ :=
  cs.foldl (fun a c => a * 10 + (c.toNat - 48)) 0

/-- Convenience: the character list of a string literal. -/
def chars (s : String) : List Char := s.data

/-- Result of Python `float()`: a finite value (exact, in the rational
model of floats), a signed infinity (`float("inf")`), or a NaN
(`float("nan")`). -/
inductive PyF where
  | fin : ℚ → PyF
  | inf : Bool → PyF
  | nan : PyF
deriving DecidableEq

/-- The six ASCII characters `Py_ISSPACE` accepts; CPython's
`float_from_string_inner` (floatobject.c) strips them from both ends of
the number. -/
def pySpace (c : Char) : Bool :=
  c == ' ' || c == '\t' || c == '\n' || c == '\r' || c == '\x0b' || c == '\x0c'

/-- Whitespace stripping around the number, as in `float_from_string_inner`. -/
def pyStrip (s : List Char) : List Char :=
  ((s.dropWhile pySpace).reverse.dropWhile pySpace).reverse

/-- Validation and removal of PEP-515 underscores, as in
`_Py_string_to_number_with_underscores` (CPython pystrtod.c): every
underscore must be directly preceded and directly followed by an ASCII
digit; the first argument carries the previous character (initially
`'\x00'`, like the C code's `prev`). -/
def pyUnderAux : Char → List Char → Option (List Char)
  | prev, [] => if prev = '_' then none else some []
  | prev, c :: r =>
    if c = '_' then
      if prev.isDigit then pyUnderAux c r else none
    else if prev = '_' ∧ ¬ c.isDigit then none
    else (pyUnderAux c r).map (fun t => c :: t)

/-- Underscore phase of `float()`, applied to the unstripped string. -/
def pyUnder (s : List Char) : Option (List Char) := pyUnderAux '\x00' s

/-- Exponent digits: after `e` and an optional sign there must be one or
more digits and nothing else. -/
def pyExpDigits (m : ℚ) (neg : Bool) (r : List Char) : Option ℚ :=
  let ds := r.takeWhile Char.isDigit
  let rest := r.dropWhile Char.isDigit
  if ds = [] ∨ rest ≠ [] then none
  else some (if neg then m / 10 ^ digitsVal ds else m * 10 ^ digitsVal ds)

/-- Optional exponent `e`/`E` with an optional sign after the significand. -/
def pyExp (m : ℚ) : List Char → Option ℚ
  | [] => some m
  | c :: r =>
    if c = 'e' ∨ c = 'E' then
      match r with
      | '+' :: r2 => pyExpDigits m false r2
      | '-' :: r2 => pyExpDigits m true r2
      | _ => pyExpDigits m false r
    else none

/-- Unsigned significand — `digits`, `digits.`, `digits.digits` or
`.digits` — followed by an optional exponent. -/
def pyMantExp (s : List Char) : Option ℚ :=
  let ip := s.takeWhile Char.isDigit
  let r1 := s.dropWhile Char.isDigit
  match r1 with
  | '.' :: r2 =>
    let fp := r2.takeWhile Char.isDigit
    let r3 := r2.dropWhile Char.isDigit
    if ip = [] ∧ fp = [] then none
    else pyExp ((digitsVal ip : ℚ) + (digitsVal fp : ℚ) / 10 ^ fp.length) r3
  | _ => if ip = [] then none else pyExp (digitsVal ip) r1

/-- Parse of a stripped, underscore-free float body: an optional sign, then
a case-insensitive `inf`/`infinity`/`nan` or a decimal significand with an
optional exponent (`_PyOS_ascii_strtod` / `_Py_parse_inf_or_nan`, CPython
pystrtod.c). -/
def pyNumParse (s : List Char) : Option PyF :=
  let (neg, t) :=
    match s with
    | '+' :: r => (false, r)
    | '-' :: r => (true, r)
    | r => (false, r)
  let tl := t.map Char.toLower
  if tl = chars "inf" ∨ tl = chars "infinity" then some (PyF.inf neg)
  else if tl = chars "nan" then some PyF.nan
  else
    match pyMantExp t with
    | some q => some (PyF.fin (if neg then -q else q))
    | none => none

/-- Model of Python `float()` on an ASCII string (CPython's
`PyFloat_FromString`): validate and drop PEP-515 underscores, strip
surrounding whitespace, then parse an optional sign and
`inf`/`infinity`/`nan` or decimal/exponent notation; `none` is the
`ValueError` branch.  Values are taken exactly in the rational model of
floats (no rounding to binary64, hence no overflow to infinity, no
underflow to zero, and no negative zero).  The Unicode-digit and
Unicode-space transform CPython applies first is the identity on ASCII
strings; non-ASCII strings are outside the model, and the theorems about
`parse_scale` are scoped to ASCII input by an explicit hypothesis. -/
def pyFloat (cs : List Char) : Option PyF :=
  match pyUnder cs with
  | none => none
  | some t => pyNumParse (pyStrip t)

/-- An ASCII string: CPython's Unicode transform is the identity on these,
so `pyFloat` models `float()` verbatim. -/
def asciiStr (s : List Char) : Prop := ∀ c ∈ s, c.toNat < 128

instance (s : List Char) : Decidable (asciiStr s) :=
  inferInstanceAs (Decidable (∀ c ∈ s, c.toNat < 128))

/-- Python float division (`float_div`, CPython floatobject.c): a zero
denominator raises `ZeroDivisionError` (`none`) whatever the numerator is;
otherwise NaNs propagate, a finite value divided by an infinity gives
zero, and an infinity divided by a finite value keeps its sign times the
denominator's sign. -/
def pyDiv : PyF → PyF → Option PyF
  | n, PyF.fin d =>
    if d = 0 then none
    else
      match n with
      | PyF.fin nv => some (PyF.fin (nv / d))
      | PyF.inf neg => some (PyF.inf (neg != decide (d < 0)))
      | PyF.nan => some PyF.nan
  | PyF.nan, _ => some PyF.nan
  | _, PyF.nan => some PyF.nan
  | PyF.fin _, PyF.inf _ => some (PyF.fin 0)
  | PyF.inf _, PyF.inf _ => some PyF.nan

/-- Shared translation of `_parse_scale` / `parse_scale`
(`detector.py` lines 204-226, `wall_detector.py` lines 274-290,
`opening_detector.py` lines 311-327 — all three bodies are identical):
split on `":"`; on exactly two float-parsable parts return their quotient;
a `ValueError` (a part `float()` rejects) or `ZeroDivisionError`
(denominator zero) or a wrong number of parts yields the default `0.01`.
A quotient that is an infinity or NaN — possible only when a part is an
`inf`/`nan` literal — has no value in the rational model and is mapped to
`0`; every theorem about `parse_scale`'s value excludes that case. -/
def parse_scale (scale : List Char) : ℚ :=
  match pySplit ':' scale with
  | [a, b] =>
    match pyFloat a, pyFloat b with
    | some n, some d =>
      match pyDiv n d with
      | some (PyF.fin q) => q
      | some _ => 0
      | none => 0.01
    | _, _ => 0.01
  | _ => 0.01

/-! ## Bitmaps and visited masks -/

/-- A binary image: bit `y * width + x` of `data` is `binary[y, x] == 1`. -/
structure Bitmap where
  width : ℕ
  height : ℕ
  data : ℕ
deriving DecidableEq

/-- Value of `binary[y, x]` (callers only index in bounds, as the source does). -/
def Bitmap.get (b : Bitmap) (x y : ℕ) : Bool := b.data.testBit (y * b.width + x)

/-- Value of `visited[y, x]` for a visited mask of an image of width `w`. -/
def vtest (v w x y : ℕ) : Bool := v.testBit (y * w + x)

/-- Translation of `visited[y, x] = True`. -/
def vset (v w x y : ℕ) : ℕ := v ||| (1 <<< (y * w + x))

/-! ## Flood fill

Both flood-fill loops of the source (`OpeningDetector._flood_fill_region`,
lines 286-309, filling background pixels, and the inline loop of
`StructuralDetector._find_filled_rectangles`, lines 277-293, filling
foreground pixels) share this shape.  `fg` is the pixel value being filled
(`false`: the opening detector's background fill; `true`: the structural
detector's foreground fill).  The loop state pairs the stack (top at the
head, so Python's
`stack.extend([(x+1,y),(x-1,y),(x,y+1),(x,y-1)]); stack.pop()` pops
`(x, y-1)` first) with the remaining locals: the visited mask, the
bounding-box accumulators and the pixel count.

The loop `while stack and count < max_size` always terminates because
`5 * (max_size - count) + len(stack)` strictly decreases at every iteration
(an invalid pop shrinks the stack; a valid pop raises `count` by one and
grows the stack by net three).  Its initial value for a one-element stack and
`count = 0` is `5 * max_size + 1`, which is the fuel supplied at every call
site, so the fuel can never run out and the Lean function computes exactly
what the Python loop computes. -/

/-- State of a flood-fill loop (everything but the stack). -/
structure FillSt where
  vis : ℕ
  minX : ℤ
  maxX : ℤ
  minY : ℤ
  maxY : ℤ
  count : ℕ
deriving DecidableEq

/-- One flood-fill `while` loop over the full loop state (the stack paired
with the visited/bounding-box/count locals); see the section comment for the
fuel. -/
def fillLoop (b : Bitmap) (fg : Bool) (max_size : ℕ) :
    ℕ → List (ℤ × ℤ) × FillSt → List (ℤ × ℤ) × FillSt
  | 0, s => s
  | _ + 1, ([], st) => ([], st)
  | fuel + 1, ((x, y) :: rest, st) =>
    if st.count < max_size then
      if x < 0 ∨ (b.width : ℤ) ≤ x ∨ y < 0 ∨ (b.height : ℤ) ≤ y
          ∨ vtest st.vis b.width x.toNat y.toNat
          ∨ b.get x.toNat y.toNat ≠ fg then
        fillLoop b fg max_size fuel (rest, st)
      else
        fillLoop b fg max_size fuel
          ((x, y - 1) :: (x, y + 1) :: (x - 1, y) :: (x + 1, y) :: rest,
           { vis := vset st.vis b.width x.toNat y.toNat,
             minX := min st.minX x, maxX := max st.maxX x,
             minY := min st.minY y, maxY := max st.maxY y,
             count := st.count + 1 })
    else ((x, y) :: rest, st)

/-- Translation of `OpeningDetector._flood_fill_region` (opening_detector.py lines 260-309):
fills a background region, returns `(x, y, width, height)` when
`0 < count < max_size`, else `None`; also returns the updated visited mask
(the Python function mutates `visited` in place). -/
def flood_fill_region (b : Bitmap) (visited : ℕ) (start_x start_y : ℤ)
    (max_size : ℕ) : Option (ℤ × ℤ × ℤ × ℤ) × ℕ :=
  let st := (fillLoop b false max_size (5 * max_size + 1) ([(start_x, start_y)],
    ⟨visited, start_x, start_x, start_y, start_y, 0⟩)).2
  if 0 < st.count ∧ st.count < max_size then
    (some (st.minX, st.minY, st.maxX - st.minX + 1, st.maxY - st.minY + 1),
      st.vis)
  else (none, st.vis)

/-- Row-major list of all pixel coordinates (`for y ...: for x ...`). -/
def allCoords (b : Bitmap) : List (ℕ × ℕ) :=
  (List.range b.height).flatMap (fun y => (List.range b.width).map (fun x => (x, y)))

/-- The pixel scan of `StructuralDetector._find_filled_rectangles`
(structural_detector.py lines 269-301), as a recursion over the remaining
row-major coordinates, carrying the mutable `rectangles` and `visited` of
the source as arguments. -/
def rectScan (b : Bitmap) :
    List (ℕ × ℕ) → List (ℤ × ℤ × ℤ × ℤ × ℚ) → ℕ → List (ℤ × ℤ × ℤ × ℤ × ℚ)
  | [], rects, _ => rects
  | (x, y) :: cs, rects, vis =>
    if b.get x y && !(vtest vis b.width x y) then
      let fo := (fillLoop b true 10000 (5 * 10000 + 1) ([((x : ℤ), (y : ℤ))],
        ⟨vis, x, x, y, y, 0⟩)).2
      if 0 < fo.count then
        let w := fo.maxX - fo.minX + 1
        let h := fo.maxY - fo.minY + 1
        let fr : ℚ := if 0 < w * h then (fo.count : ℚ) / ((w * h : ℤ) : ℚ) else 0
        if 1/2 < fr then rectScan b cs (rects ++ [(fo.minX, fo.minY, w, h, fr)]) fo.vis
        else rectScan b cs rects fo.vis
      else rectScan b cs rects fo.vis
    else rectScan b cs rects vis

/-- Translation of `StructuralDetector._find_filled_rectangles` (structural_detector.py
lines 250-303): scans all pixels in row-major order; at every unvisited
foreground pixel runs the inline foreground flood fill with the hard-coded
cap `10000`; whenever `count > 0`, computes the bounding box and the fill
ratio `count / (w*h)` and appends the region if the ratio exceeds `0.5`
— note that this appends even when the loop stopped at the pixel cap. -/
def find_filled_rectangles (b : Bitmap) : List (ℤ × ℤ × ℤ × ℤ × ℚ) :=
  rectScan b (allCoords b) [] 0

/-! ## Data model (detector.py lines 22-59) -/

/-- Translation of `BoundingBox` (detector.py lines 22-38). -/
structure BoundingBox where
  x : ℤ
  y : ℤ
  width : ℤ
  height : ℤ
deriving DecidableEq

/-- Translation of `DetectedElement` (detector.py lines 41-59).  The numeric `fill_ratio`
entry that `_detect_columns` stores among the string-valued properties is not
modelled (no claim reads any property other than the `*_type` strings). -/
structure DetectedElement where
  element_type : String
  subtype : Option String := none
  bbox : Option BoundingBox := none
  confidence : ℚ := 0
  dimensions : List (String × ℚ) := []
  properties : List (String × String) := []
deriving DecidableEq

/-! ## OpeningDetector (opening_detector.py) -/

/-- Configuration of `OpeningDetector.__init__` (lines 30-44). -/
structure OpeningDetector where
  min_opening_width : ℤ := 20
  max_opening_width : ℤ := 200
deriving DecidableEq

/-- The detector with its default configuration. -/
def openingDefaults : OpeningDetector := {}

/-- Row-major list of the interior pixel coordinates scanned by
`_find_wall_gaps` (`for y in range(1, height-1): for x in range(1, width-1)`). -/
def interiorCoords (b : Bitmap) : List (ℕ × ℕ) :=
  (List.range' 1 (b.height - 2)).flatMap
    (fun y => (List.range' 1 (b.width - 2)).map (fun x => (x, y)))

/-- The pixel scan of `OpeningDetector._find_wall_gaps` (opening_detector.py
lines 222-234), as a recursion over the remaining interior coordinates,
carrying the mutable `gaps` and `visited` of the source as arguments. -/
def gapScan (cfg : OpeningDetector) (b : Bitmap) :
    List (ℕ × ℕ) → List (ℤ × ℤ × ℤ × ℤ) → ℕ → List (ℤ × ℤ × ℤ × ℤ)
  | [], gaps, _ => gaps
  | (x, y) :: cs, gaps, vis =>
    if !b.get x y && !(vtest vis b.width x y) then
      match flood_fill_region b vis x y 10000 with
      | (some r, vis2) =>
        let (_, _, rw, rh) := r
        if cfg.min_opening_width ≤ rw ∧ rw ≤ cfg.max_opening_width ∧
            cfg.min_opening_width / 2 ≤ rh ∧ rh ≤ cfg.max_opening_width then
          gapScan cfg b cs (gaps ++ [r]) vis2
        else gapScan cfg b cs gaps vis2
      | (none, vis2) => gapScan cfg b cs gaps vis2
    else gapScan cfg b cs gaps vis

/-- Translation of `OpeningDetector._find_wall_gaps` (opening_detector.py lines 202-236):
scans interior pixels; at every unvisited background pixel runs
`_flood_fill_region` (with its default cap 10000) and keeps the region when
`min_opening_width ≤ w ≤ max_opening_width` and
`min_opening_width // 2 ≤ h ≤ max_opening_width`. -/
def find_wall_gaps (cfg : OpeningDetector) (b : Bitmap) :
    List (ℤ × ℤ × ℤ × ℤ) :=
  gapScan cfg b (interiorCoords b) [] 0

/-- Translation of `OpeningDetector._find_door_swings` (opening_detector.py lines 238-258):
an explicit placeholder, always returns the empty list. -/
def find_door_swings (b : Bitmap) : List (ℤ × ℤ × ℤ × ℤ) := []

/-- Translation of `OpeningDetector._detect_windows` (opening_detector.py lines 91-147):
filters the wall gaps to `min_opening_width ≤ w ≤ max_opening_width` and
classifies a gap as a window only when `h < w * 2`. -/
def detect_windows (cfg : OpeningDetector) (b : Bitmap) (scale : List Char) :
    List DetectedElement :=
  let scale_factor := parse_scale scale
  (find_wall_gaps cfg b).filterMap (fun r =>
    let (x, y, w, h) := r
    if cfg.min_opening_width ≤ w ∧ w ≤ cfg.max_opening_width then
      if h < w * 2 then
        some { element_type := "window", subtype := some "standard",
               bbox := some ⟨x, y, w, h⟩, confidence := 0.7,
               dimensions := [("width_px", (w : ℚ)), ("height_px", (h : ℚ)),
                 ("width_m", (w : ℚ) * scale_factor),
                 ("height_m", (h : ℚ) * scale_factor)],
               properties := [("window_type", "Standard-Fenster")] }
      else none
    else none)

/-- Translation of `OpeningDetector._detect_doors` (opening_detector.py lines 149-200):
same filter over the door-swing regions (which are always empty). -/
def detect_doors (cfg : OpeningDetector) (b : Bitmap) (scale : List Char) :
    List DetectedElement :=
  let scale_factor := parse_scale scale
  (find_door_swings b).filterMap (fun r =>
    let (x, y, w, h) := r
    if cfg.min_opening_width ≤ w ∧ w ≤ cfg.max_opening_width then
      some { element_type := "door", subtype := some "standard",
             bbox := some ⟨x, y, w, h⟩, confidence := 0.7,
             dimensions := [("width_px", (w : ℚ)), ("height_px", (h : ℚ)),
               ("width_m", (w : ℚ) * scale_factor),
               ("height_m", (h : ℚ) * scale_factor)],
             properties := [("door_type", "Standard-Tür")] }
    else none)

/-- Translation of `OpeningDetector.detect` (opening_detector.py lines 46-89) after
binarization: the windows followed by the doors. -/
def OpeningDetector.detect (cfg : OpeningDetector) (b : Bitmap)
    (scale : List Char) : List DetectedElement :=
  detect_windows cfg b scale ++ detect_doors cfg b scale

/-! ## StructuralDetector stubs and the beam/slab classifiers -/

/-- Translation of `StructuralDetector._find_dashed_lines` (structural_detector.py lines
305-325): an explicit placeholder, always returns the empty list. -/
def find_dashed_lines (b : Bitmap) : List (ℤ × ℤ × ℤ × ℤ) := []

/-- Translation of `StructuralDetector._find_hatched_regions` (structural_detector.py lines
327-347): an explicit placeholder, always returns the empty list. -/
def find_hatched_regions (b : Bitmap) : List (ℤ × ℤ × ℤ × ℤ) := []

/-- Translation of `StructuralDetector._detect_beams` (structural_detector.py lines 154-197). -/
def detect_beams (b : Bitmap) (scale : List Char) : List DetectedElement :=
  let scale_factor := parse_scale scale
  (find_dashed_lines b).map (fun r =>
    let (x, y, w, h) := r
    { element_type := "beam", subtype := some "standard",
      bbox := some ⟨x, y, w, h⟩, confidence := 0.65,
      dimensions := [("length_px", (max w h : ℚ)),
        ("length_m", (max w h : ℚ) * scale_factor)],
      properties := [("beam_type", "Unterzug"),
        ("orientation", if h < w then "horizontal" else "vertical")] })

/-- Translation of `StructuralDetector._detect_slabs` (structural_detector.py lines 199-248). -/
def detect_slabs (b : Bitmap) (scale : List Char) : List DetectedElement :=
  let scale_factor := parse_scale scale
  (find_hatched_regions b).map (fun r =>
    let (x, y, w, h) := r
    { element_type := "slab", subtype := some "floor",
      bbox := some ⟨x, y, w, h⟩, confidence := 0.6,
      dimensions := [("width_px", (w : ℚ)), ("height_px", (h : ℚ)),
        ("area_px", (w * h : ℚ)),
        ("width_m", (w : ℚ) * scale_factor),
        ("height_m", (h : ℚ) * scale_factor),
        ("area_m2", ((w : ℚ) * scale_factor) * ((h : ℚ) * scale_factor))],
      properties := [("slab_type", "Geschossdecke")] })

/-! ## WallDetector (wall_detector.py)

The two line-scanner passes are `while` loops advancing an index by at least
one per iteration, so fuel equal to the scanned dimension is always enough:
supplying `width` (resp. `height`) as fuel, the loop can only stop early at
an index already past the end, where it returns the same state as the
in-bounds check does. -/

/-- Configuration of `WallDetector.__init__` (wall_detector.py lines 29-43). -/
structure WallDetector where
  exterior_wall_min_thickness : ℕ := 10
  interior_wall_min_thickness : ℕ := 5
deriving DecidableEq

/-- The detector with its default configuration. -/
def wallDefaults : WallDetector := {}

/-- A line-scanner run `(x, y, width, height, thickness)`. -/
abbrev LineT := ℕ × ℕ × ℕ × ℕ × ℕ

/-- Translation of `while end_x < width and binary[y, end_x] == 1: end_x += 1`
(wall_detector.py lines 143-145). -/
def runEndH (b : Bitmap) (y : ℕ) : ℕ → ℕ → ℕ
  | 0, x => x
  | fuel + 1, x => if x < b.width ∧ b.get x y then runEndH b y fuel (x + 1) else x

/-- Translation of `while end_y < height and binary[end_y, x] == 1: end_y += 1`
(wall_detector.py lines 195-197). -/
def runEndV (b : Bitmap) (x : ℕ) : ℕ → ℕ → ℕ
  | 0, y => y
  | fuel + 1, y => if y < b.height ∧ b.get x y then runEndV b x fuel (y + 1) else y

/-- Downward thickness probe of `_measure_line_thickness`
(`while check_y < height and binary[check_y, sample_x] == 1`). -/
def countDown (b : Bitmap) (x : ℕ) : ℕ → ℕ → ℕ
  | 0, _ => 0
  | fuel + 1, y =>
    if y < b.height ∧ b.get x y then countDown b x fuel (y + 1) + 1 else 0

/-- Rightward thickness probe of `_measure_line_thickness`
(`while check_x < width and binary[sample_y, check_x] == 1`). -/
def countRight (b : Bitmap) (y : ℕ) : ℕ → ℕ → ℕ
  | 0, _ => 0
  | fuel + 1, x =>
    if x < b.width ∧ b.get x y then countRight b y fuel (x + 1) + 1 else 0

/-- Translation of `int(np.median(thicknesses))` on a list of naturals (and the `return 0`
fallback for an empty list): sort; middle element for odd length, truncated
mean of the two middle elements for even length. -/
def medianNat (l : List ℕ) : ℕ :=
  if l = [] then 0
  else
    let s := l.mergeSort (fun a b => decide (a ≤ b))
    let n := l.length
    if n % 2 = 1 then s.getD (n / 2) 0
    else (s.getD (n / 2 - 1) 0 + s.getD (n / 2) 0) / 2

/-- Translation of `_measure_line_thickness` (wall_detector.py lines 221-272), horizontal
case: sample up to 10 evenly spaced points along the run, count contiguous
foreground pixels downward at each, take the median. -/
def measure_line_thickness_h (b : Bitmap) (x y len : ℕ) : ℕ :=
  let sample_points := min 10 len
  medianNat ((List.range sample_points).filterMap (fun i =>
    let sample_x := x + (i * len) / sample_points
    if sample_x < b.width then some (countDown b sample_x b.height y) else none))

/-- Translation of `_measure_line_thickness`, vertical case. -/
def measure_line_thickness_v (b : Bitmap) (x y len : ℕ) : ℕ :=
  let sample_points := min 10 len
  medianNat ((List.range sample_points).filterMap (fun i =>
    let sample_y := y + (i * len) / sample_points
    if sample_y < b.height then some (countRight b sample_y b.width x) else none))

/-- Translation of `for dy in range(thickness): if y + dy < height: visited[y+dy, x:end_x] = True`
(wall_detector.py lines 159-161). -/
def markBandH (b : Bitmap) (vis x ex y t : ℕ) : ℕ :=
  (List.range t).foldl (fun v dy =>
    if y + dy < b.height then
      (List.range (ex - x)).foldl (fun v2 i => vset v2 b.width (x + i) (y + dy)) v
    else v) vis

/-- Translation of `for dx in range(thickness): if x + dx < width: visited[y:end_y, x+dx] = True`
(wall_detector.py lines 211-213). -/
def markBandV (b : Bitmap) (vis y ey x t : ℕ) : ℕ :=
  (List.range t).foldl (fun v dx =>
    if x + dx < b.width then
      (List.range (ey - y)).foldl (fun v2 i => vset v2 b.width (x + dx) (y + i)) v
    else v) vis

/-- Inner `while x < width` loop of `_detect_horizontal_lines`
(wall_detector.py lines 139-165), carrying `(visited, lines)`. -/
def scanRowH (cfg : WallDetector) (b : Bitmap) (min_length y : ℕ) :
    ℕ → ℕ → ℕ × List LineT → ℕ × List LineT
  | 0, _, st => st
  | fuel + 1, x, (vis, lines) =>
    if x < b.width then
      if b.get x y && !(vtest vis b.width x y) then
        let end_x := runEndH b y b.width x
        let line_length := end_x - x
        if min_length ≤ line_length then
          let t := measure_line_thickness_h b x y line_length
          let lines2 :=
            if cfg.interior_wall_min_thickness ≤ t then
              lines ++ [(x, y, line_length, t, t)]
            else lines
          scanRowH cfg b min_length y fuel end_x (markBandH b vis x end_x y t, lines2)
        else scanRowH cfg b min_length y fuel end_x (vis, lines)
      else scanRowH cfg b min_length y fuel (x + 1) (vis, lines)
    else (vis, lines)

/-- Inner `while y < height` loop of `_detect_vertical_lines`
(wall_detector.py lines 191-217). -/
def scanColV (cfg : WallDetector) (b : Bitmap) (min_length x : ℕ) :
    ℕ → ℕ → ℕ × List LineT → ℕ × List LineT
  | 0, _, st => st
  | fuel + 1, y, (vis, lines) =>
    if y < b.height then
      if b.get x y && !(vtest vis b.width x y) then
        let end_y := runEndV b x b.height y
        let line_length := end_y - y
        if min_length ≤ line_length then
          let t := measure_line_thickness_v b x y line_length
          let lines2 :=
            if cfg.interior_wall_min_thickness ≤ t then
              lines ++ [(x, y, t, line_length, t)]
            else lines
          scanColV cfg b min_length x fuel end_y (markBandV b vis y end_y x t, lines2)
        else scanColV cfg b min_length x fuel end_y (vis, lines)
      else scanColV cfg b min_length x fuel (y + 1) (vis, lines)
    else (vis, lines)

/-- Translation of `WallDetector._detect_horizontal_lines` (wall_detector.py lines 117-167);
`min_length` is the method's defaulted parameter (50). -/
def detect_horizontal_lines (cfg : WallDetector) (b : Bitmap)
    (min_length : ℕ) : List LineT :=
  ((List.range b.height).foldl
    (fun st y => scanRowH cfg b min_length y b.width 0 st) (0, [])).2

/-- Translation of `WallDetector._detect_vertical_lines` (wall_detector.py lines 169-219). -/
def detect_vertical_lines (cfg : WallDetector) (b : Bitmap)
    (min_length : ℕ) : List LineT :=
  ((List.range b.width).foldl
    (fun st x => scanColV cfg b min_length x b.height 0 st) (0, [])).2

/-- Wall element built in the classification loop of `WallDetector.detect`
(wall_detector.py lines 93-112). -/
def mkWallElement (sf : ℚ) (subtype wall_type : String) (l : LineT) :
    DetectedElement :=
  let (x, y, w, h, t) := l
  { element_type := "wall", subtype := some subtype,
    bbox := some ⟨(x : ℤ), (y : ℤ), (w : ℤ), (h : ℤ)⟩, confidence := 0.8,
    dimensions := [("length_px", (max w h : ℚ)), ("thickness_px", (t : ℚ)),
      ("length_m", (max w h : ℚ) * sf), ("thickness_m", (t : ℚ) * sf)],
    properties := [("wall_type", wall_type),
      ("orientation", if h < w then "horizontal" else "vertical")] }

/-- Translation of `WallDetector.detect` (wall_detector.py lines 45-115) after binarization:
classify each run of both passes by thickness (`exterior` at
`exterior_wall_min_thickness`, `interior` at `interior_wall_min_thickness`,
otherwise skip — `continue` in the source). -/
def WallDetector.detect (cfg : WallDetector) (b : Bitmap)
    (scale : List Char) : List DetectedElement :=
  let h_lines := detect_horizontal_lines cfg b 50
  let v_lines := detect_vertical_lines cfg b 50
  (h_lines ++ v_lines).filterMap (fun l =>
    let t := l.2.2.2.2
    let scale_factor := parse_scale scale
    if cfg.exterior_wall_min_thickness ≤ t then
      some (mkWallElement scale_factor "exterior" "Außenwand" l)
    else if cfg.interior_wall_min_thickness ≤ t then
      some (mkWallElement scale_factor "interior" "Innenwand" l)
    else none)

/-! ## QuantityCalculator (calculator.py)

`QuantityItem.notes` (a display-only f-string) is not modelled; no claim
mentions it.  The summary dictionary-of-dictionaries is modelled as a
function `String → Option (String → Option ℚ)` — lookup/insert semantics of
a Python dict; its iteration order is irrelevant here because the only
iteration over it (the rounding pass) is pointwise. -/

/-- Translation of `QuantityItem` (calculator.py lines 15-35, without `notes`). -/
structure QuantityItem where
  position : ℕ
  category : String
  description : String
  quantity : ℚ
  unit : String
  dimensions : List (String × ℚ) := []
deriving DecidableEq

/-- The summary mapping category → unit → total. -/
def Summary : Type := String → Option (String → Option ℚ)

/-- Translation of `QuantityResult` (calculator.py lines 38-48). -/
structure QuantityResult where
  items : List QuantityItem
  summary : Summary

/-- Configuration of `QuantityCalculator.__init__` (calculator.py lines 94-107). -/
structure QuantityCalculator where
  default_wall_height : ℚ := 2.75
  default_slab_thickness : ℚ := 0.20
deriving DecidableEq

/-- The calculator with its default configuration. -/
def calcDefaults : QuantityCalculator := {}

/-- Translation of `QuantityCalculator._calculate_wall` (calculator.py lines 178-218). -/
def QuantityCalculator.calculate_wall (cfg : QuantityCalculator)
    (wall : DetectedElement) (position : ℕ) : QuantityItem :=
  let length_m := dget wall.dimensions "length_m" 0
  let thickness_m := dget wall.dimensions "thickness_m" 0.24
  let height_m := cfg.default_wall_height
  let area_m2 := length_m * height_m
  let volume_m3 := area_m2 * thickness_m
  let wall_type := pget wall.properties "wall_type" "Wand"
  { position := position, category := "Wände",
    description := wall_type ++ " (" ++ optStr wall.subtype ++ ")",
    quantity := area_m2, unit := "m²",
    dimensions := [("length_m", py_round length_m 2),
      ("height_m", py_round height_m 2),
      ("thickness_m", py_round thickness_m 3),
      ("area_m2", py_round area_m2 2),
      ("volume_m3", py_round volume_m3 3)] }

/-- Translation of `QuantityCalculator._calculate_window` (calculator.py lines 220-254). -/
def QuantityCalculator.calculate_window (cfg : QuantityCalculator)
    (window : DetectedElement) (position : ℕ) : QuantityItem :=
  let width_m := dget window.dimensions "width_m" 1.0
  let height_m := dget window.dimensions "height_m" 1.2
  let area_m2 := width_m * height_m
  let window_type := pget window.properties "window_type" "Fenster"
  { position := position, category := "Fenster",
    description := window_type,
    quantity := 1, unit := "Stück",
    dimensions := [("width_m", py_round width_m 2),
      ("height_m", py_round height_m 2),
      ("area_m2", py_round area_m2 2)] }

/-- Translation of `QuantityCalculator._calculate_door` (calculator.py lines 256-290). -/
def QuantityCalculator.calculate_door (cfg : QuantityCalculator)
    (door : DetectedElement) (position : ℕ) : QuantityItem :=
  let width_m := dget door.dimensions "width_m" 0.88
  let height_m := dget door.dimensions "height_m" 2.01
  let area_m2 := width_m * height_m
  let door_type := pget door.properties "door_type" "Tür"
  { position := position, category := "Türen",
    description := door_type,
    quantity := 1, unit := "Stück",
    dimensions := [("width_m", py_round width_m 2),
      ("height_m", py_round height_m 2),
      ("area_m2", py_round area_m2 2)] }

/-- Translation of `QuantityCalculator._calculate_column` (calculator.py lines 292-332). -/
def QuantityCalculator.calculate_column (cfg : QuantityCalculator)
    (column : DetectedElement) (position : ℕ) : QuantityItem :=
  let width_m := dget column.dimensions "width_m" 0.3
  let depth_m := dget column.dimensions "depth_m" 0.3
  let height_m := cfg.default_wall_height
  let cross_section_m2 := width_m * depth_m
  let volume_m3 := cross_section_m2 * height_m
  let column_type := pget column.properties "column_type" "Stütze"
  { position := position, category := "Stützen",
    description := column_type,
    quantity := volume_m3, unit := "m³",
    dimensions := [("width_m", py_round width_m 2),
      ("depth_m", py_round depth_m 2),
      ("height_m", py_round height_m 2),
      ("cross_section_m2", py_round cross_section_m2 4),
      ("volume_m3", py_round volume_m3 3)] }

/-- Translation of `QuantityCalculator._calculate_beam` (calculator.py lines 334-374). -/
def QuantityCalculator.calculate_beam (cfg : QuantityCalculator)
    (beam : DetectedElement) (position : ℕ) : QuantityItem :=
  let length_m := dget beam.dimensions "length_m" 1.0
  let width_m : ℚ := 0.30
  let height_m : ℚ := 0.50
  let cross_section_m2 := width_m * height_m
  let volume_m3 := cross_section_m2 * length_m
  let beam_type := pget beam.properties "beam_type" "Unterzug"
  { position := position, category := "Unterzüge",
    description := beam_type,
    quantity := volume_m3, unit := "m³",
    dimensions := [("length_m", py_round length_m 2),
      ("width_m", py_round width_m 2),
      ("height_m", py_round height_m 2),
      ("cross_section_m2", py_round cross_section_m2 4),
      ("volume_m3", py_round volume_m3 3)] }

/-- Translation of `QuantityCalculator._calculate_slab` (calculator.py lines 376-410). -/
def QuantityCalculator.calculate_slab (cfg : QuantityCalculator)
    (slab : DetectedElement) (position : ℕ) : QuantityItem :=
  let area_m2 := dget slab.dimensions "area_m2" 0
  let thickness_m := cfg.default_slab_thickness
  let volume_m3 := area_m2 * thickness_m
  let slab_type := pget slab.properties "slab_type" "Decke"
  { position := position, category := "Decken",
    description := slab_type,
    quantity := area_m2, unit := "m²",
    dimensions := [("area_m2", py_round area_m2 2),
      ("thickness_m", py_round thickness_m 3),
      ("volume_m3", py_round volume_m3 3)] }

/-- Empty summary dictionary. -/
def semp : Summary := fun _ => none

/-- Lookup `summary[c][u]`. -/
def sLookup (s : Summary) (c u : String) : Option ℚ :=
  match s c with
  | some m => m u
  | none => none

/-- One iteration of the accumulation loop of `_create_summary`
(calculator.py lines 424-432): create missing keys, then
`summary[cat][unit] += quantity`. -/
def summaryAdd (s : Summary) (it : QuantityItem) : Summary :=
  let inner : String → Option ℚ := fun u =>
    match s it.category with
    | some m => m u
    | none => none
  let cur : ℚ :=
    match inner it.unit with
    | some v => v
    | none => 0
  fun c =>
    if c = it.category then
      some (fun u => if u = it.unit then some (cur + it.quantity) else inner u)
    else s c

/-- Translation of `QuantityCalculator._create_summary` (calculator.py lines 412-439):
accumulate all quantities grouped by `(category, unit)`, then round every
accumulated value to 2 decimals. -/
def create_summary (items : List QuantityItem) : Summary :=
  let raw := items.foldl summaryAdd semp
  fun c => (raw c).map (fun m => fun u => (m u).map (fun v => py_round v 2))

/-- One `for elem in group: items.append(f(elem, position)); position += 1`
loop of `QuantityCalculator.calculate` (calculator.py lines 137-170). -/
def calcFor (f : DetectedElement → ℕ → QuantityItem) :
    List DetectedElement → List QuantityItem × ℕ → List QuantityItem × ℕ
  | [], st => st
  | e :: rest, (items, position) =>
    calcFor f rest (items ++ [f e position], position + 1)

/-- Translation of `QuantityCalculator.calculate` (calculator.py lines 113-176): group the
elements by type, run the six per-kind loops in the fixed order walls,
windows, doors, columns, beams, slabs with a running position counter
starting at 1, then derive the summary. -/
def QuantityCalculator.calculate (cfg : QuantityCalculator)
    (elements : List DetectedElement) : QuantityResult :=
  let walls := elements.filter (fun e => e.element_type == "wall")
  let windows := elements.filter (fun e => e.element_type == "window")
  let doors := elements.filter (fun e => e.element_type == "door")
  let columns := elements.filter (fun e => e.element_type == "column")
  let beams := elements.filter (fun e => e.element_type == "beam")
  let slabs := elements.filter (fun e => e.element_type == "slab")
  let st := calcFor (cfg.calculate_wall) walls ([], 1)
  let st := calcFor (cfg.calculate_window) windows st
  let st := calcFor (cfg.calculate_door) doors st
  let st := calcFor (cfg.calculate_column) columns st
  let st := calcFor (cfg.calculate_beam) beams st
  let st := calcFor (cfg.calculate_slab) slabs st
  { items := st.1, summary := create_summary st.1 }

/-- Truthiness of the `openings` argument (`if deduct_openings and openings:`
— both `None` and the empty list are falsy). -/
def openingsTruthy : Option (List DetectedElement) → Bool
  | some (_ :: _) => true
  | _ => false

/-- Translation of `QuantityCalculator.calculate_wall_area` (calculator.py lines 441-471):
sum the wall areas, optionally deduct the opening areas, clamp at 0, round
to 2 decimals. -/
def QuantityCalculator.calculate_wall_area (cfg : QuantityCalculator)
    (walls : List DetectedElement) (deduct_openings : Bool)
    (openings : Option (List DetectedElement)) : ℚ :=
  let total_area := walls.foldl
    (fun acc w => acc + dget w.dimensions "length_m" 0 * cfg.default_wall_height) 0
  let total_area :=
    if deduct_openings && openingsTruthy openings then
      (openings.getD []).foldl
        (fun acc o =>
          acc - dget o.dimensions "width_m" 0 * dget o.dimensions "height_m" 0)
        total_area
    else total_area
  py_round (max 0 total_area) 2

/-! ## Specification-side definitions

These definitions follow the wording of the specification (not the source);
the refinement theorems below compare them with the translated code. -/

/-- Spec 4.4: a line-scanner run becomes a wall element iff its measured
thickness is at least `interior_wall_min_thickness`; the subtype is
`exterior` exactly when the thickness is at least
`exterior_wall_min_thickness` and `interior` otherwise; `length_m` is
`max(width, height)` times the scale factor, `thickness_m` is the thickness
times the scale factor, and the confidence is the constant `0.8`. -/
def wallFromRunSpec (cfg : WallDetector) (sf : ℚ) (l : LineT) :
    Option DetectedElement :=
  let (x, y, w, h, t) := l
  if cfg.interior_wall_min_thickness ≤ t then
    some { element_type := "wall",
           subtype :=
             some (if cfg.exterior_wall_min_thickness ≤ t then "exterior"
               else "interior"),
           bbox := some ⟨(x : ℤ), (y : ℤ), (w : ℤ), (h : ℤ)⟩,
           confidence := 0.8,
           dimensions := [("length_px", (max w h : ℚ)),
             ("thickness_px", (t : ℚ)),
             ("length_m", (max w h : ℚ) * sf),
             ("thickness_m", (t : ℚ) * sf)],
           properties := [("wall_type",
             if cfg.exterior_wall_min_thickness ≤ t then "Außenwand"
             else "Innenwand"),
             ("orientation", if h < w then "horizontal" else "vertical")] }
  else none

/-- Amended spec 4.5: a gap found by the gap finder is classified as a
window iff its width lies in `[min_opening_width, max_opening_width]` and
its height is strictly less than twice its width; no gap ever becomes a
door. -/
def windowFromGapSpec (cfg : OpeningDetector) (sf : ℚ) (r : ℤ × ℤ × ℤ × ℤ) :
    Option DetectedElement :=
  let (x, y, w, h) := r
  if cfg.min_opening_width ≤ w ∧ w ≤ cfg.max_opening_width ∧ h < w * 2 then
    some { element_type := "window", subtype := some "standard",
           bbox := some ⟨x, y, w, h⟩, confidence := 0.7,
           dimensions := [("width_px", (w : ℚ)), ("height_px", (h : ℚ)),
             ("width_m", (w : ℚ) * sf), ("height_m", (h : ℚ) * sf)],
           properties := [("window_type", "Standard-Fenster")] }
  else none

/-- Spec 4.7: the items of the quantity result in a closed form — one item
per element of each kind, in the fixed order walls, windows, doors, columns,
beams, slabs, with positions assigned sequentially starting at 1 and the
input order preserved inside each kind. -/
def itemsFrom (f : DetectedElement → ℕ → QuantityItem) :
    ℕ → List DetectedElement → List QuantityItem
  | _, [] => []
  | p, e :: rest => f e p :: itemsFrom f (p + 1) rest

/-- See `itemsFrom`: the closed form of the item list. -/
def orderedItemsSpec (cfg : QuantityCalculator)
    (elements : List DetectedElement) : List QuantityItem :=
  let walls := elements.filter (fun e => e.element_type == "wall")
  let windows := elements.filter (fun e => e.element_type == "window")
  let doors := elements.filter (fun e => e.element_type == "door")
  let columns := elements.filter (fun e => e.element_type == "column")
  let beams := elements.filter (fun e => e.element_type == "beam")
  let slabs := elements.filter (fun e => e.element_type == "slab")
  itemsFrom (cfg.calculate_wall) 1 walls
    ++ itemsFrom (cfg.calculate_window) (1 + walls.length) windows
    ++ itemsFrom (cfg.calculate_door) (1 + walls.length + windows.length) doors
    ++ itemsFrom (cfg.calculate_column)
        (1 + walls.length + windows.length + doors.length) columns
    ++ itemsFrom (cfg.calculate_beam)
        (1 + walls.length + windows.length + doors.length + columns.length) beams
    ++ itemsFrom (cfg.calculate_slab)
        (1 + walls.length + windows.length + doors.length + columns.length
          + beams.length) slabs

/-! ## Concrete fixtures used by counterexamples and witnesses -/

/-- A 22×42 binary image: a foreground (wall) ring around a 20×40
background gap.  The gap's width 20 lies inside the opening range and its
height 40 is not less than twice the width, so it qualifies as an opening
but not as a window. -/
def cexBmp : Bitmap :=
  ⟨22, 42, (List.range (22 * 42)).foldl (fun acc i =>
    if i % 22 = 0 ∨ i / 22 = 0 ∨ i % 22 = 21 ∨ i / 22 = 41 then
      acc ||| (1 <<< i)
    else acc) 0⟩

/-- A one-row bitmap of 10001 foreground pixels: its single connected region
exceeds the structural detector's pixel cap of 10000. -/
def lineBmp : Bitmap := ⟨10001, 1, 2 ^ 10001 - 1⟩

/-- A 1×1 all-background bitmap (used to witness the cap-drop theorem with
`max_size = 1`). -/
def onePx : Bitmap := ⟨1, 1, 0⟩

/-- The wall element of the spec's scenario:
`length_m = 5.0`, `thickness_m = 0.24`. -/
def wall5 : DetectedElement :=
  { element_type := "wall", subtype := some "interior",
    dimensions := [("length_m", 5.0), ("thickness_m", 0.24)] }

/-- A second wall element whose area under the default height is 6.0 m²
(`6.0 = (24/11) × 2.75`). -/
def wall6 : DetectedElement :=
  { element_type := "wall", subtype := some "interior",
    dimensions := [("length_m", 24/11), ("thickness_m", 0.24)] }

/-- A window element with `width_m = 1.5`, `height_m = 1.2`. -/
def window15 : DetectedElement :=
  { element_type := "window", subtype := some "standard",
    dimensions := [("width_m", 1.5), ("height_m", 1.2)] }

/-- An element of the given kind with empty dimensions and properties. -/
def emptyElem (kind : String) : DetectedElement := { element_type := kind }

/-- An opening far larger than any wall (10 m × 10 m), to exercise the
clamping of `calculate_wall_area`. -/
def bigDoor : DetectedElement :=
  { element_type := "door",
    dimensions := [("width_m", 10), ("height_m", 10)] }

/-- A scale string on which `parse_scale` takes the fallback `0.01`: not
exactly two `":"`-separated parts (wrong shape), a part on which `float()`
raises `ValueError`, or a denominator that parses to `0.0`
(`ZeroDivisionError`, reached also from an `inf`/`nan` numerator). -/
def scaleMalformed (s : List Char) : Prop :=
  match pySplit ':' s with
  | [a, b] => pyFloat a = none ∨ pyFloat b = none ∨ pyFloat b = some (PyF.fin 0)
  | _ => True

/-! ## Helper lemmas -/

set_option maxRecDepth 1000000
set_option exponentiation.threshold 20000

theorem pySplit_no_sep (sep : Char) :
    ∀ (cs : List Char), sep ∉ cs → pySplit sep cs = [cs]
  | [], _ => rfl
  | c :: rest, h => by
    rw [pySplit, if_neg (fun e => h (by rw [← e]; exact List.mem_cons_self _ _)),
      pySplit_no_sep sep rest (fun hm => h (List.mem_cons_of_mem _ hm))]

theorem pySplit_append (sep : Char) :
    ∀ (a b : List Char), sep ∉ a →
      pySplit sep (a ++ sep :: b) = a :: pySplit sep b
  | [], b, _ => by
    show pySplit sep (sep :: b) = [] :: pySplit sep b
    rw [pySplit, if_pos rfl]
  | c :: a, b, h => by
    show pySplit sep (c :: (a ++ sep :: b)) = (c :: a) :: pySplit sep b
    rw [pySplit, if_neg (fun e => h (by rw [← e]; exact List.mem_cons_self _ _)),
      pySplit_append sep a b (fun hm => h (List.mem_cons_of_mem _ hm))]

theorem rhe_nonneg {q : ℚ} (h : 0 ≤ q) : 0 ≤ rhe q := by
  have hf : 0 ≤ q.num.fdiv (q.den : ℤ) :=
    Int.fdiv_nonneg (Rat.num_nonneg.mpr h) (by exact_mod_cast Nat.zero_le _)
  simp only [rhe]
  split_ifs <;> omega

theorem py_round_nonneg {q : ℚ} (h : 0 ≤ q) (n : ℕ) : 0 ≤ py_round q n := by
  unfold py_round
  apply div_nonneg _ (by positivity)
  exact_mod_cast rhe_nonneg (by positivity)

theorem foldl_add_sum (f : DetectedElement → ℚ) :
    ∀ (l : List DetectedElement) (init : ℚ),
      l.foldl (fun acc w => acc + f w) init = init + (l.map f).sum
  | [], init => by simp
  | w :: l, init => by
    simp only [List.foldl_cons, List.map_cons, List.sum_cons]
    rw [foldl_add_sum f l (init + f w)]
    ring

theorem foldl_sub_sum (f : DetectedElement → ℚ) :
    ∀ (l : List DetectedElement) (init : ℚ),
      l.foldl (fun acc w => acc - f w) init = init - (l.map f).sum
  | [], init => by simp
  | w :: l, init => by
    simp only [List.foldl_cons, List.map_cons, List.sum_cons]
    rw [foldl_sub_sum f l (init - f w)]
    ring

theorem sLookup_summaryAdd_same (s : Summary) (it : QuantityItem) :
    sLookup (summaryAdd s it) it.category it.unit =
      some ((sLookup s it.category it.unit).getD 0 + it.quantity) := by
  unfold sLookup summaryAdd
  simp only [eq_self_iff_true, if_true]
  cases hm : s it.category with
  | none => simp
  | some m => cases hu : m it.unit <;> simp [hu]

theorem sLookup_summaryAdd_ne (s : Summary) (it : QuantityItem) (c u : String)
    (h : ¬(c = it.category ∧ u = it.unit)) :
    sLookup (summaryAdd s it) c u = sLookup s c u := by
  by_cases hc : c = it.category
  · have hu : ¬ u = it.unit := fun e => h ⟨hc, e⟩
    subst hc
    unfold sLookup summaryAdd
    simp only [eq_self_iff_true, if_true, hu, if_false]
  · unfold sLookup summaryAdd
    simp only [if_neg hc]

theorem summary_foldl (c u : String) :
    ∀ (items : List QuantityItem) (s : Summary),
      sLookup (items.foldl summaryAdd s) c u =
        (if (items.filter (fun it => it.category == c && it.unit == u)) = []
         then sLookup s c u
         else some ((sLookup s c u).getD 0 +
           ((items.filter (fun it => it.category == c && it.unit == u)).map
             (fun it => it.quantity)).sum))
  | [], s => by simp
  | it :: items, s => by
    rw [List.foldl_cons, List.filter_cons]
    by_cases hm : (it.category == c && it.unit == u) = true
    · obtain ⟨h1, h2⟩ := Bool.and_eq_true_iff.mp hm
      have hc1 : it.category = c := beq_iff_eq.mp h1
      have hc2 : it.unit = u := beq_iff_eq.mp h2
      subst hc1
      subst hc2
      rw [if_pos hm, summary_foldl _ _ items (summaryAdd s it),
        sLookup_summaryAdd_same]
      by_cases he :
          (items.filter (fun i => i.category == it.category && i.unit == it.unit)) = []
      · rw [if_pos he, if_neg (List.cons_ne_nil _ _), he]
        simp
      · rw [if_neg he, if_neg (List.cons_ne_nil _ _)]
        simp only [Option.getD_some, List.map_cons, List.sum_cons]
        rw [add_assoc]
    · have hne : ¬(c = it.category ∧ u = it.unit) := by
        rintro ⟨e1, e2⟩
        exact hm (by rw [e1, e2]; simp)
      rw [if_neg hm, summary_foldl _ _ items (summaryAdd s it),
        sLookup_summaryAdd_ne s it c u hne]

theorem sLookup_create_summary (items : List QuantityItem) (c u : String) :
    sLookup (create_summary items) c u =
      (sLookup (items.foldl summaryAdd semp) c u).map (fun v => py_round v 2) := by
  cases hm : items.foldl summaryAdd semp c with
  | none => simp [create_summary, sLookup, hm]
  | some m => simp [create_summary, sLookup, hm]

theorem calcFor_eq (f : DetectedElement → ℕ → QuantityItem) :
    ∀ (es : List DetectedElement) (items : List QuantityItem) (pos : ℕ),
      calcFor f es (items, pos) = (items ++ itemsFrom f pos es, pos + es.length)
  | [], items, pos => by simp [calcFor, itemsFrom]
  | e :: es, items, pos => by
    rw [calcFor, calcFor_eq f es (items ++ [f e pos]) (pos + 1)]
    simp [itemsFrom, List.append_assoc]
    omega

theorem itemsFrom_length (f : DetectedElement → ℕ → QuantityItem) :
    ∀ (pos : ℕ) (es : List DetectedElement),
      (itemsFrom f pos es).length = es.length
  | _, [] => rfl
  | pos, e :: es => by
    rw [itemsFrom, List.length_cons, List.length_cons,
      itemsFrom_length f (pos + 1) es]

theorem itemsFrom_map_position (f : DetectedElement → ℕ → QuantityItem)
    (hf : ∀ e p, (f e p).position = p) :
    ∀ (pos : ℕ) (es : List DetectedElement),
      (itemsFrom f pos es).map (fun it => it.position)
        = List.range' pos es.length
  | _, [] => rfl
  | pos, e :: es => by
    rw [itemsFrom, List.map_cons, hf, itemsFrom_map_position f hf (pos + 1) es]
    rfl

theorem range'_glue (s m n : ℕ) :
    List.range' s m ++ List.range' (s + m) n = List.range' s (m + n) := by
  have h := List.range'_append s m n 1
  rw [Nat.one_mul] at h
  rw [Nat.add_comm m n]
  exact h

theorem range'_glue6 (a b c d e f : ℕ) :
    List.range' 1 a ++ List.range' (1 + a) b ++ List.range' (1 + a + b) c ++
      List.range' (1 + a + b + c) d ++ List.range' (1 + a + b + c + d) e ++
      List.range' (1 + a + b + c + d + e) f
      = List.range' 1 (a + b + c + d + e + f) := by
  rw [range'_glue 1 a b,
    show 1 + a + b = 1 + (a + b) from by omega,
    range'_glue 1 (a + b) c,
    show 1 + (a + b) + c = 1 + (a + b + c) from by omega,
    range'_glue 1 (a + b + c) d,
    show 1 + (a + b + c) + d = 1 + (a + b + c + d) from by omega,
    range'_glue 1 (a + b + c + d) e,
    show 1 + (a + b + c + d) + e = 1 + (a + b + c + d + e) from by omega,
    range'_glue 1 (a + b + c + d + e) f]

theorem length_partition :
    ∀ (es : List DetectedElement),
      (∀ e ∈ es, e.element_type ∈
        (["wall", "window", "door", "column", "beam", "slab"] : List String)) →
      (es.filter (fun e => e.element_type == "wall")).length
        + (es.filter (fun e => e.element_type == "window")).length
        + (es.filter (fun e => e.element_type == "door")).length
        + (es.filter (fun e => e.element_type == "column")).length
        + (es.filter (fun e => e.element_type == "beam")).length
        + (es.filter (fun e => e.element_type == "slab")).length = es.length
  | [], _ => rfl
  | e :: es, h => by
    have ih := length_partition es (fun x hx => h x (List.mem_cons_of_mem _ hx))
    have he := h e (List.mem_cons_self _ _)
    simp only [List.mem_cons, List.not_mem_nil, or_false] at he
    simp only [List.filter_cons, List.length_cons]
    rcases he with ht | ht | ht | ht | ht | ht <;> rw [ht] <;> simp <;> omega

theorem scanRowH_mem (cfg : WallDetector) (b : Bitmap) (ml y : ℕ) :
    ∀ (fuel x vis : ℕ) (lines : List LineT) (l : LineT),
      l ∈ (scanRowH cfg b ml y fuel x (vis, lines)).2 →
      l ∈ lines ∨ cfg.interior_wall_min_thickness ≤ l.2.2.2.2
  | 0, x, vis, lines, l => fun hl => Or.inl hl
  | fuel + 1, x, vis, lines, l => by
    intro hl
    rw [scanRowH] at hl
    by_cases h1 : x < b.width
    · rw [if_pos h1] at hl
      by_cases h2 : (b.get x y && !(vtest vis b.width x y)) = true
      · rw [if_pos h2] at hl
        by_cases h3 : ml ≤ runEndH b y b.width x - x
        · rw [if_pos h3] at hl
          rcases scanRowH_mem cfg b ml y fuel _ _ _ l hl with h4 | h4
          · by_cases h5 : cfg.interior_wall_min_thickness ≤
                measure_line_thickness_h b x y (runEndH b y b.width x - x)
            · rw [if_pos h5] at h4
              rcases List.mem_append.mp h4 with h6 | h6
              · exact Or.inl h6
              · right
                have h7 := List.mem_singleton.mp h6
                rw [h7]
                exact h5
            · rw [if_neg h5] at h4
              exact Or.inl h4
          · exact Or.inr h4
        · rw [if_neg h3] at hl
          exact scanRowH_mem cfg b ml y fuel _ _ _ l hl
      · rw [if_neg h2] at hl
        exact scanRowH_mem cfg b ml y fuel _ _ _ l hl
    · rw [if_neg h1] at hl
      exact Or.inl hl

theorem scanColV_mem (cfg : WallDetector) (b : Bitmap) (ml x : ℕ) :
    ∀ (fuel y vis : ℕ) (lines : List LineT) (l : LineT),
      l ∈ (scanColV cfg b ml x fuel y (vis, lines)).2 →
      l ∈ lines ∨ cfg.interior_wall_min_thickness ≤ l.2.2.2.2
  | 0, y, vis, lines, l => fun hl => Or.inl hl
  | fuel + 1, y, vis, lines, l => by
    intro hl
    rw [scanColV] at hl
    by_cases h1 : y < b.height
    · rw [if_pos h1] at hl
      by_cases h2 : (b.get x y && !(vtest vis b.width x y)) = true
      · rw [if_pos h2] at hl
        by_cases h3 : ml ≤ runEndV b x b.height y - y
        · rw [if_pos h3] at hl
          rcases scanColV_mem cfg b ml x fuel _ _ _ l hl with h4 | h4
          · by_cases h5 : cfg.interior_wall_min_thickness ≤
                measure_line_thickness_v b x y (runEndV b x b.height y - y)
            · rw [if_pos h5] at h4
              rcases List.mem_append.mp h4 with h6 | h6
              · exact Or.inl h6
              · right
                have h7 := List.mem_singleton.mp h6
                rw [h7]
                exact h5
            · rw [if_neg h5] at h4
              exact Or.inl h4
          · exact Or.inr h4
        · rw [if_neg h3] at hl
          exact scanColV_mem cfg b ml x fuel _ _ _ l hl
      · rw [if_neg h2] at hl
        exact scanColV_mem cfg b ml x fuel _ _ _ l hl
    · rw [if_neg h1] at hl
      exact Or.inl hl

theorem scanRows_mem (cfg : WallDetector) (b : Bitmap) (ml : ℕ) :
    ∀ (rows : List ℕ) (st : ℕ × List LineT) (l : LineT),
      l ∈ (rows.foldl (fun st y => scanRowH cfg b ml y b.width 0 st) st).2 →
      l ∈ st.2 ∨ cfg.interior_wall_min_thickness ≤ l.2.2.2.2
  | [], _, _ => Or.inl
  | y :: rows, st, l => fun hl => by
    rcases scanRows_mem cfg b ml rows _ l hl with h | h
    · exact scanRowH_mem cfg b ml y b.width 0 st.1 st.2 l h
    · exact Or.inr h

theorem scanCols_mem (cfg : WallDetector) (b : Bitmap) (ml : ℕ) :
    ∀ (cols : List ℕ) (st : ℕ × List LineT) (l : LineT),
      l ∈ (cols.foldl (fun st x => scanColV cfg b ml x b.height 0 st) st).2 →
      l ∈ st.2 ∨ cfg.interior_wall_min_thickness ≤ l.2.2.2.2
  | [], _, _ => Or.inl
  | x :: cols, st, l => fun hl => by
    rcases scanCols_mem cfg b ml cols _ l hl with h | h
    · exact scanColV_mem cfg b ml x b.height 0 st.1 st.2 l h
    · exact Or.inr h

theorem detect_horizontal_lines_thick (cfg : WallDetector) (b : Bitmap)
    (ml : ℕ) :
    ∀ l ∈ detect_horizontal_lines cfg b ml,
      cfg.interior_wall_min_thickness ≤ l.2.2.2.2 := by
  intro l hl
  rcases scanRows_mem cfg b ml (List.range b.height) (0, []) l hl with h | h
  · cases h
  · exact h

theorem detect_vertical_lines_thick (cfg : WallDetector) (b : Bitmap)
    (ml : ℕ) :
    ∀ l ∈ detect_vertical_lines cfg b ml,
      cfg.interior_wall_min_thickness ≤ l.2.2.2.2 := by
  intro l hl
  rcases scanCols_mem cfg b ml (List.range b.width) (0, []) l hl with h | h
  · cases h
  · exact h

theorem classify_eq_spec (cfg : WallDetector) (sf : ℚ)
    (hce : cfg.interior_wall_min_thickness ≤ cfg.exterior_wall_min_thickness)
    (l : LineT) :
    (if cfg.exterior_wall_min_thickness ≤ l.2.2.2.2 then
      some (mkWallElement sf "exterior" "Außenwand" l)
    else if cfg.interior_wall_min_thickness ≤ l.2.2.2.2 then
      some (mkWallElement sf "interior" "Innenwand" l)
    else none) = wallFromRunSpec cfg sf l := by
  obtain ⟨x, y, w, ht, t⟩ := l
  unfold wallFromRunSpec mkWallElement
  dsimp only
  split_ifs <;> first | rfl | omega

theorem windows_spec_eq (cfg : OpeningDetector) (b : Bitmap)
    (sc : List Char) :
    detect_windows cfg b sc
      = (find_wall_gaps cfg b).filterMap
          (windowFromGapSpec cfg (parse_scale sc)) := by
  unfold detect_windows
  apply List.filterMap_congr
  intro r _
  obtain ⟨x, y, w, hh⟩ := r
  unfold windowFromGapSpec
  dsimp only
  split_ifs <;> first | rfl | tauto

theorem fill_cap_drop (b : Bitmap) (vis : ℕ) (sx sy : ℤ) (ms : ℕ)
    (hc : (fillLoop b false ms (5 * ms + 1) ([(sx, sy)],
      ⟨vis, sx, sx, sy, sy, 0⟩)).2.count = ms) :
    (flood_fill_region b vis sx sy ms).1 = none := by
  unfold flood_fill_region
  simp only [hc]
  rw [if_neg (by omega : ¬(0 < ms ∧ ms < ms))]

theorem fillLoop_stop (b : Bitmap) (fg : Bool) (ms : ℕ) :
    ∀ (n : ℕ) (st : FillSt), fillLoop b fg ms n ([], st) = ([], st)
  | 0, _ => rfl
  | _ + 1, _ => rfl

theorem fillLoop_stuck (b : Bitmap) (fg : Bool) (ms : ℕ) :
    ∀ (n : ℕ) (l : List (ℤ × ℤ)) (st : FillSt), ¬ st.count < ms →
      fillLoop b fg ms n (l, st) = (l, st)
  | 0, _, _, _ => rfl
  | _ + 1, [], _, _ => rfl
  | _ + 1, (x, y) :: rest, st, h => by
    rw [fillLoop, if_neg h]

theorem fillLoop_add (b : Bitmap) (fg : Bool) (ms : ℕ) :
    ∀ (m n : ℕ) (s : List (ℤ × ℤ) × FillSt),
      fillLoop b fg ms (m + n) s
        = fillLoop b fg ms n (fillLoop b fg ms m s)
  | 0, n, s => by rw [Nat.zero_add]; rfl
  | m + 1, n, ([], st) => by
    rw [fillLoop_stop, fillLoop_stop, fillLoop_stop]
  | m + 1, n, ((x, y) :: rest, st) => by
    by_cases h : st.count < ms
    · rw [show m + 1 + n = m + n + 1 from by omega, fillLoop, fillLoop,
        if_pos h, if_pos h]
      by_cases h2 : x < 0 ∨ (b.width : ℤ) ≤ x ∨ y < 0 ∨ (b.height : ℤ) ≤ y
          ∨ vtest st.vis b.width x.toNat y.toNat ∨ b.get x.toNat y.toNat ≠ fg
      · rw [if_pos h2, if_pos h2]
        exact fillLoop_add b fg ms m n _
      · rw [if_neg h2, if_neg h2]
        exact fillLoop_add b fg ms m n _
    · rw [fillLoop_stuck b fg ms _ _ _ h, fillLoop_stuck b fg ms _ _ _ h,
        fillLoop_stuck b fg ms _ _ _ h]

/-- Chunked evaluation of the structural flood fill on `lineBmp`: each chunk
advances the loop by a bounded amount of fuel, so no single kernel
evaluation builds an overly deep reduction. -/
theorem fillChunk1 :
    fillLoop lineBmp true 10000 2000
      ([(((0 : ℕ) : ℤ), ((0 : ℕ) : ℤ))],
        ⟨0, ((0 : ℕ) : ℤ), ((0 : ℕ) : ℤ), ((0 : ℕ) : ℤ), ((0 : ℕ) : ℤ), 0⟩)
      = ([(500, 0)], ⟨2 ^ 500 - 1, 0, 499, 0, 0, 500⟩) := by decide!

theorem fillChunk2 :
    fillLoop lineBmp true 10000 2000
      ([(500, 0)], ⟨2 ^ 500 - 1, 0, 499, 0, 0, 500⟩)
      = ([(1000, 0)], ⟨2 ^ 1000 - 1, 0, 999, 0, 0, 1000⟩) := by decide!

theorem fillChunk3 :
    fillLoop lineBmp true 10000 2000
      ([(1000, 0)], ⟨2 ^ 1000 - 1, 0, 999, 0, 0, 1000⟩)
      = ([(1500, 0)], ⟨2 ^ 1500 - 1, 0, 1499, 0, 0, 1500⟩) := by decide!

theorem fillChunk4 :
    fillLoop lineBmp true 10000 2000
      ([(1500, 0)], ⟨2 ^ 1500 - 1, 0, 1499, 0, 0, 1500⟩)
      = ([(2000, 0)], ⟨2 ^ 2000 - 1, 0, 1999, 0, 0, 2000⟩) := by decide!

theorem fillChunk5 :
    fillLoop lineBmp true 10000 2000
      ([(2000, 0)], ⟨2 ^ 2000 - 1, 0, 1999, 0, 0, 2000⟩)
      = ([(2500, 0)], ⟨2 ^ 2500 - 1, 0, 2499, 0, 0, 2500⟩) := by decide!

theorem fillChunk6 :
    fillLoop lineBmp true 10000 2000
      ([(2500, 0)], ⟨2 ^ 2500 - 1, 0, 2499, 0, 0, 2500⟩)
      = ([(3000, 0)], ⟨2 ^ 3000 - 1, 0, 2999, 0, 0, 3000⟩) := by decide!

theorem fillChunk7 :
    fillLoop lineBmp true 10000 2000
      ([(3000, 0)], ⟨2 ^ 3000 - 1, 0, 2999, 0, 0, 3000⟩)
      = ([(3500, 0)], ⟨2 ^ 3500 - 1, 0, 3499, 0, 0, 3500⟩) := by decide!

theorem fillChunk8 :
    fillLoop lineBmp true 10000 2000
      ([(3500, 0)], ⟨2 ^ 3500 - 1, 0, 3499, 0, 0, 3500⟩)
      = ([(4000, 0)], ⟨2 ^ 4000 - 1, 0, 3999, 0, 0, 4000⟩) := by decide!

theorem fillChunk9 :
    fillLoop lineBmp true 10000 2000
      ([(4000, 0)], ⟨2 ^ 4000 - 1, 0, 3999, 0, 0, 4000⟩)
      = ([(4500, 0)], ⟨2 ^ 4500 - 1, 0, 4499, 0, 0, 4500⟩) := by decide!

theorem fillChunk10 :
    fillLoop lineBmp true 10000 2000
      ([(4500, 0)], ⟨2 ^ 4500 - 1, 0, 4499, 0, 0, 4500⟩)
      = ([(5000, 0)], ⟨2 ^ 5000 - 1, 0, 4999, 0, 0, 5000⟩) := by decide!

theorem fillChunk11 :
    fillLoop lineBmp true 10000 2000
      ([(5000, 0)], ⟨2 ^ 5000 - 1, 0, 4999, 0, 0, 5000⟩)
      = ([(5500, 0)], ⟨2 ^ 5500 - 1, 0, 5499, 0, 0, 5500⟩) := by decide!

theorem fillChunk12 :
    fillLoop lineBmp true 10000 2000
      ([(5500, 0)], ⟨2 ^ 5500 - 1, 0, 5499, 0, 0, 5500⟩)
      = ([(6000, 0)], ⟨2 ^ 6000 - 1, 0, 5999, 0, 0, 6000⟩) := by decide!

theorem fillChunk13 :
    fillLoop lineBmp true 10000 2000
      ([(6000, 0)], ⟨2 ^ 6000 - 1, 0, 5999, 0, 0, 6000⟩)
      = ([(6500, 0)], ⟨2 ^ 6500 - 1, 0, 6499, 0, 0, 6500⟩) := by decide!

theorem fillChunk14 :
    fillLoop lineBmp true 10000 2000
      ([(6500, 0)], ⟨2 ^ 6500 - 1, 0, 6499, 0, 0, 6500⟩)
      = ([(7000, 0)], ⟨2 ^ 7000 - 1, 0, 6999, 0, 0, 7000⟩) := by decide!

theorem fillChunk15 :
    fillLoop lineBmp true 10000 2000
      ([(7000, 0)], ⟨2 ^ 7000 - 1, 0, 6999, 0, 0, 7000⟩)
      = ([(7500, 0)], ⟨2 ^ 7500 - 1, 0, 7499, 0, 0, 7500⟩) := by decide!

theorem fillChunk16 :
    fillLoop lineBmp true 10000 2000
      ([(7500, 0)], ⟨2 ^ 7500 - 1, 0, 7499, 0, 0, 7500⟩)
      = ([(8000, 0)], ⟨2 ^ 8000 - 1, 0, 7999, 0, 0, 8000⟩) := by decide!

theorem fillChunk17 :
    fillLoop lineBmp true 10000 2000
      ([(8000, 0)], ⟨2 ^ 8000 - 1, 0, 7999, 0, 0, 8000⟩)
      = ([(8500, 0)], ⟨2 ^ 8500 - 1, 0, 8499, 0, 0, 8500⟩) := by decide!

theorem fillChunk18 :
    fillLoop lineBmp true 10000 2000
      ([(8500, 0)], ⟨2 ^ 8500 - 1, 0, 8499, 0, 0, 8500⟩)
      = ([(9000, 0)], ⟨2 ^ 9000 - 1, 0, 8999, 0, 0, 9000⟩) := by decide!

theorem fillChunk19 :
    fillLoop lineBmp true 10000 2000
      ([(9000, 0)], ⟨2 ^ 9000 - 1, 0, 8999, 0, 0, 9000⟩)
      = ([(9500, 0)], ⟨2 ^ 9500 - 1, 0, 9499, 0, 0, 9500⟩) := by decide!

theorem fillChunk20 :
    fillLoop lineBmp true 10000 2000
      ([(9500, 0)], ⟨2 ^ 9500 - 1, 0, 9499, 0, 0, 9500⟩)
      = ([(9999, -1), (9999, 1), (9998, 0), (10000, 0)],
         ⟨2 ^ 10000 - 1, 0, 9999, 0, 0, 10000⟩) := by decide!

/-- Value of the first flood fill of `find_filled_rectangles` on `lineBmp`,
assembled from the chunks: it visits the 10000 pixels `x = 0 … 9999` and
stops at the pixel cap with a nonempty stack. -/
theorem fillLit :
    fillLoop lineBmp true 10000 (5 * 10000 + 1)
      ([(((0 : ℕ) : ℤ), ((0 : ℕ) : ℤ))],
        ⟨0, ((0 : ℕ) : ℤ), ((0 : ℕ) : ℤ), ((0 : ℕ) : ℤ), ((0 : ℕ) : ℤ), 0⟩)
      = ([(9999, -1), (9999, 1), (9998, 0), (10000, 0)],
         ⟨2 ^ 10000 - 1, 0, 9999, 0, 0, 10000⟩) := by
  rw [show (5 * 10000 + 1 : ℕ)
      = 2000 + (2000 + (2000 + (2000 + (2000 + (2000 + (2000 + (2000 + (2000 + (2000 + (2000 + (2000 + (2000 + (2000 + (2000 + (2000 + (2000 + (2000 + (2000 + (2000 + 10001)))))))))))))))))))
    from by norm_num]
  rw [fillLoop_add,
    fillChunk1,
    fillLoop_add,
    fillChunk2,
    fillLoop_add,
    fillChunk3,
    fillLoop_add,
    fillChunk4,
    fillLoop_add,
    fillChunk5,
    fillLoop_add,
    fillChunk6,
    fillLoop_add,
    fillChunk7,
    fillLoop_add,
    fillChunk8,
    fillLoop_add,
    fillChunk9,
    fillLoop_add,
    fillChunk10,
    fillLoop_add,
    fillChunk11,
    fillLoop_add,
    fillChunk12,
    fillLoop_add,
    fillChunk13,
    fillLoop_add,
    fillChunk14,
    fillLoop_add,
    fillChunk15,
    fillLoop_add,
    fillChunk16,
    fillLoop_add,
    fillChunk17,
    fillLoop_add,
    fillChunk18,
    fillLoop_add,
    fillChunk19,
    fillLoop_add,
    fillChunk20]
  exact fillLoop_stuck lineBmp true 10000 10001 _ _ (by decide)

/-- Value of the second flood fill of `find_filled_rectangles` on `lineBmp`,
seeded at the one pixel the capped fill never reached. -/
theorem fill2Lit :
    fillLoop lineBmp true 10000 (5 * 10000 + 1)
      ([(((10000 : ℕ) : ℤ), ((0 : ℕ) : ℤ))],
        ⟨2 ^ 10000 - 1, ((10000 : ℕ) : ℤ), ((10000 : ℕ) : ℤ),
          ((0 : ℕ) : ℤ), ((0 : ℕ) : ℤ), 0⟩)
      = ([], ⟨2 ^ 10001 - 1, 10000, 10000, 0, 0, 1⟩) := by decide!

theorem rectScan_cons (b : Bitmap) (x y : ℕ) (cs : List (ℕ × ℕ))
    (rects : List (ℤ × ℤ × ℤ × ℤ × ℚ)) (vis : ℕ) :
    rectScan b ((x, y) :: cs) rects vis =
      (if b.get x y && !(vtest vis b.width x y) then
        let fo := (fillLoop b true 10000 (5 * 10000 + 1) ([((x : ℤ), (y : ℤ))],
          ⟨vis, x, x, y, y, 0⟩)).2
        if 0 < fo.count then
          let w := fo.maxX - fo.minX + 1
          let h := fo.maxY - fo.minY + 1
          let fr : ℚ := if 0 < w * h then (fo.count : ℚ) / ((w * h : ℤ) : ℚ) else 0
          if 1/2 < fr then
            rectScan b cs (rects ++ [(fo.minX, fo.minY, w, h, fr)]) fo.vis
          else rectScan b cs rects fo.vis
        else rectScan b cs rects fo.vis
      else rectScan b cs rects vis) := rfl

theorem rectScan_skip (b : Bitmap) :
    ∀ (cs cs2 : List (ℕ × ℕ)) (rects : List (ℤ × ℤ × ℤ × ℤ × ℚ)) (vis : ℕ),
      (∀ c ∈ cs, (b.get c.1 c.2 && !(vtest vis b.width c.1 c.2)) = false) →
      rectScan b (cs ++ cs2) rects vis = rectScan b cs2 rects vis
  | [], cs2, rects, vis, _ => rfl
  | (x, y) :: cs, cs2, rects, vis, h => by
    have hx := h (x, y) (List.mem_cons_self _ _)
    rw [List.cons_append, rectScan_cons, hx]
    simp only [Bool.false_eq_true, if_false]
    exact rectScan_skip b cs cs2 rects vis
      (fun c hc => h c (List.mem_cons_of_mem _ hc))

theorem rectScan_nil (b : Bitmap) (rects : List (ℤ × ℤ × ℤ × ℤ × ℚ))
    (vis : ℕ) : rectScan b [] rects vis = rects := rfl

theorem rectScan_hit (b : Bitmap) (x y : ℕ) (cs : List (ℕ × ℕ))
    (rects : List (ℤ × ℤ × ℤ × ℤ × ℚ)) (vis : ℕ) (l2 : List (ℤ × ℤ))
    (st : FillSt)
    (hget : (b.get x y && !(vtest vis b.width x y)) = true)
    (hfill : fillLoop b true 10000 (5 * 10000 + 1)
      ([((x : ℤ), (y : ℤ))], ⟨vis, x, x, y, y, 0⟩) = (l2, st))
    (hcount : 0 < st.count)
    (hpos : (0 : ℤ) < (st.maxX - st.minX + 1) * (st.maxY - st.minY + 1))
    (hfr : 1/2 < (st.count : ℚ)
      / (((st.maxX - st.minX + 1) * (st.maxY - st.minY + 1) : ℤ) : ℚ)) :
    rectScan b ((x, y) :: cs) rects vis
      = rectScan b cs
          (rects ++ [(st.minX, st.minY, st.maxX - st.minX + 1,
            st.maxY - st.minY + 1,
            (st.count : ℚ)
              / (((st.maxX - st.minX + 1) * (st.maxY - st.minY + 1) : ℤ) : ℚ))])
          st.vis := by
  rw [rectScan_cons, if_pos hget, hfill]
  show (if 0 < st.count then
      if 1/2 < (if (0 : ℤ) < (st.maxX - st.minX + 1) * (st.maxY - st.minY + 1)
          then (st.count : ℚ)
            / (((st.maxX - st.minX + 1) * (st.maxY - st.minY + 1) : ℤ) : ℚ)
          else 0) then
        rectScan b cs
          (rects ++ [(st.minX, st.minY, st.maxX - st.minX + 1,
            st.maxY - st.minY + 1,
            (if (0 : ℤ) < (st.maxX - st.minX + 1) * (st.maxY - st.minY + 1)
              then (st.count : ℚ)
                / (((st.maxX - st.minX + 1) * (st.maxY - st.minY + 1) : ℤ) : ℚ)
              else 0))]) st.vis
      else rectScan b cs rects st.vis
    else rectScan b cs rects st.vis) = _
  rw [if_pos hcount, if_pos hpos, if_pos hfr]

/-- Value of `find_filled_rectangles` on the 10001-pixel line: the flood fill from
`(0, 0)` stops at the 10000-pixel cap, yet the truncated region
`(0, 0, 10000, 1)` with fill ratio 1 is appended, and the one pixel the
capped fill never reached is then reported as a second region. -/
theorem rect_lineBmp :
    find_filled_rectangles lineBmp
      = [(0, 0, 10000, 1, 1), (10000, 0, 1, 1, 1)] := by
  have hr : (List.range' 0 10001 : List ℕ)
      = 0 :: (List.range' 1 9999 ++ [10000]) := by
    rw [show (10001 : ℕ) = 10000 + 1 from rfl, List.range'_succ]
    rw [show (10000 : ℕ) = 9999 + 1 from rfl, @List.range'_concat 1]
  have hco : allCoords lineBmp
      = ((0 : ℕ), (0 : ℕ)) :: (((List.range' 1 9999).map (fun x => (x, 0)))
          ++ [(10000, 0)]) := by
    show (List.range 1).flatMap
        (fun y => (List.range 10001).map (fun x => (x, y))) = _
    rw [show List.range 1 = [0] from rfl, List.flatMap_cons, List.flatMap_nil,
      List.append_nil, List.range_eq_range', hr]
    simp
  have hskip : ∀ c ∈ (List.range' 1 9999).map (fun x : ℕ => (x, (0 : ℕ))),
      (lineBmp.get c.1 c.2
        && !(vtest (2 ^ 10000 - 1) lineBmp.width c.1 c.2)) = false := by
    intro c hc
    rcases List.mem_map.mp hc with ⟨x, hx, rfl⟩
    have hx' : 1 ≤ x ∧ x < 1 + 9999 := List.mem_range'_1.mp hx
    have hv : vtest (2 ^ 10000 - 1) lineBmp.width x 0 = true := by
      show Nat.testBit (2 ^ 10000 - 1) (0 * 10001 + x) = true
      rw [Nat.testBit_two_pow_sub_one]
      simp only [Nat.zero_mul, Nat.zero_add, decide_eq_true_eq]
      omega
    show (lineBmp.get x 0 && !(vtest (2 ^ 10000 - 1) lineBmp.width x 0)) = false
    rw [hv]
    simp
  calc find_filled_rectangles lineBmp
      = rectScan lineBmp (allCoords lineBmp) [] 0 := rfl
    _ = rectScan lineBmp
          (((0 : ℕ), (0 : ℕ)) :: (((List.range' 1 9999).map (fun x => (x, 0)))
            ++ [(10000, 0)])) [] 0 := by rw [hco]
    _ = rectScan lineBmp
          (((List.range' 1 9999).map (fun x => (x, 0))) ++ [(10000, 0)])
          [(0, 0, 10000, 1, 1)] (2 ^ 10000 - 1) := by
        rw [rectScan_hit lineBmp 0 0 _ [] 0 _ _
          (by decide) fillLit (by decide) (by decide) (by decide)]
        congr 2
    _ = rectScan lineBmp [((10000 : ℕ), (0 : ℕ))]
          [(0, 0, 10000, 1, 1)] (2 ^ 10000 - 1) :=
        rectScan_skip lineBmp _ _ _ _ hskip
    _ = [(0, 0, 10000, 1, 1), (10000, 0, 1, 1, 1)] := by
        rw [rectScan_hit lineBmp 10000 0 [] _ _ _ _
          (by decide) fill2Lit (by decide) (by decide) (by decide),
          rectScan_nil]
        norm_num

/-- Value of `find_wall_gaps` on the ring bitmap finds exactly the 20×40 gap. -/
theorem gaps_cexBmp :
    find_wall_gaps openingDefaults cexBmp = [(1, 1, 20, 40)] := by decide!

/-! ## Claim theorems -/

/-- C9: the unimplemented detection stubs contribute nothing — door-swing
detection returns the empty list (so the door detector produces no doors),
and beam and slab detection each return zero candidates. -/
theorem C9_stubs_empty (b : Bitmap) (sc : List Char) (cfg : OpeningDetector) :
    find_door_swings b = [] ∧ detect_doors cfg b sc = [] ∧
    find_dashed_lines b = [] ∧ find_hatched_regions b = [] ∧
    detect_beams b sc = [] ∧ detect_slabs b sc = [] :=
  ⟨rfl, rfl, rfl, rfl, rfl, rfl⟩

/-- C3, counterexample: the claim says `parse_scale` returns the default
`0.01` whenever `N ≤ 0`, but the code performs no sign check —
`parse_scale "0:100"` returns `0`, not `0.01`. -/
theorem C3_scale_counterexample :
    parse_scale (chars "0:100") = 0 ∧ (0 : ℚ) ≠ 0.01 := by
  constructor <;> decide

/-- C3, amended: for every ASCII scale string splitting as `"N:D"` whose
two parts parse as finite floats `n` and `d` under the full Python
`float()` grammar (surrounding whitespace, sign, PEP-515 underscores,
decimal or exponent notation) with `d ≠ 0`, `parse_scale` returns `n / d`
— no sign check, so `N ≤ 0` or `D < 0` is not treated as invalid; and on
every ASCII string where the program falls back — wrong shape, a part
`float()` rejects, or a zero denominator — `parse_scale` returns the
default `0.01` and never raises. -/
theorem C3_scale_amended :
    (∀ (s a b : List Char) (n d : ℚ), asciiStr s →
      pySplit ':' s = [a, b] →
      pyFloat a = some (PyF.fin n) → pyFloat b = some (PyF.fin d) → d ≠ 0 →
      parse_scale s = n / d) ∧
    (∀ s : List Char, asciiStr s → scaleMalformed s → parse_scale s = 0.01) := by
  constructor
  · intro s a b n d hascii hs hfa hfb hd
    unfold parse_scale
    rw [hs]
    show (match pyFloat a, pyFloat b with
      | some nv, some dv =>
        (match pyDiv nv dv with
          | some (PyF.fin q) => q
          | some _ => 0
          | none => (0.01 : ℚ))
      | _, _ => (0.01 : ℚ)) = n / d
    rw [hfa, hfb]
    show (match pyDiv (PyF.fin n) (PyF.fin d) with
      | some (PyF.fin q) => q
      | some _ => 0
      | none => (0.01 : ℚ)) = n / d
    rw [pyDiv, if_neg hd]
  · intro s hascii hs
    unfold scaleMalformed at hs
    unfold parse_scale
    rcases hps : pySplit ':' s with _ | ⟨a, _ | ⟨b, _ | ⟨c, rest⟩⟩⟩ <;>
      rw [hps] at hs <;>
      first
      | rfl
      | (have hs2 : pyFloat a = none ∨ pyFloat b = none
            ∨ pyFloat b = some (PyF.fin 0) := hs
         show (match pyFloat a, pyFloat b with
           | some nv, some dv =>
             (match pyDiv nv dv with
               | some (PyF.fin q) => q
               | some _ => 0
               | none => (0.01 : ℚ))
           | _, _ => (0.01 : ℚ)) = (0.01 : ℚ)
         rcases hs2 with h | h | h
         · rw [h]
         · rw [h]
           rcases h2 : pyFloat a with _ | nv <;> rfl
         · rw [h]
           rcases h2 : pyFloat a with _ | nv
           · rfl
           · show (match pyDiv nv (PyF.fin 0) with
               | some (PyF.fin q) => q
               | some _ => 0
               | none => (0.01 : ℚ)) = (0.01 : ℚ)
             cases nv <;> rw [pyDiv, if_pos rfl])

/-- C3, witness: the amended theorem applied at `" 1e2:1_00"` — whitespace,
an exponent and a PEP-515 underscore, all on the `float()` success path,
quotient `1` — and at `"nan:0"`, where even a NaN numerator falls back to
`0.01` on the zero denominator. -/
theorem C3_scale_witness :
    parse_scale (chars " 1e2:1_00") = 100 / 100 ∧
    parse_scale (chars "nan:0") = 0.01 :=
  ⟨C3_scale_amended.1 (chars " 1e2:1_00") (chars " 1e2") (chars "1_00")
      100 100 (by decide) (by decide) (by decide) (by decide) (by decide),
    C3_scale_amended.2 (chars "nan:0") (by decide)
      (by right; right; decide)⟩

/-- C1, counterexample: on the ring bitmap the gap finder returns the single
gap `(1, 1, 20, 40)`, whose width 20 lies in `[20, 200]` — a qualifying gap
— and whose height 40 is not less than `2 × 20`, so by the claim it should
be classified as a door; but the detector classifies it neither as a window
nor as a door (the door list is always empty). -/
theorem C1_partition_counterexample :
    find_wall_gaps openingDefaults cexBmp = [(1, 1, 20, 40)] ∧
    detect_windows openingDefaults cexBmp (chars "1:100") = [] ∧
    detect_doors openingDefaults cexBmp (chars "1:100") = [] ∧
    ((20 : ℤ) ≤ 20 ∧ (20 : ℤ) ≤ 200 ∧ ¬((40 : ℤ) < 20 * 2)) := by
  refine ⟨gaps_cexBmp, ?_, rfl, by decide⟩
  rw [windows_spec_eq, gaps_cexBmp]
  decide

/-- C1, amended: a gap found by the gap finder (which already restricts to
width in `[min_opening_width, max_opening_width]` and height in
`[min_opening_width / 2, max_opening_width]`) is classified as a window iff
its height is strictly less than twice its width; every other qualifying gap
is classified as nothing — the door list is always empty because door-swing
detection is an unimplemented stub. -/
theorem C1_partition_amended (cfg : OpeningDetector) (b : Bitmap)
    (sc : List Char) :
    detect_windows cfg b sc
      = (find_wall_gaps cfg b).filterMap
          (windowFromGapSpec cfg (parse_scale sc)) ∧
    detect_doors cfg b sc = [] :=
  ⟨windows_spec_eq cfg b sc, rfl⟩

/-- C2, counterexample: in the structural detector a region whose flood fill
reaches the 10000-pixel cap is not dropped — on the 10001-pixel line the
truncated region is reported with a truncated bounding box and fill ratio,
and the remainder shows up as a second region. -/
theorem C2_cap_counterexample :
    find_filled_rectangles lineBmp
      = [(0, 0, 10000, 1, 1), (10000, 0, 1, 1, 1)] := rect_lineBmp

/-- C2, amended: the opening detector's `_flood_fill_region` drops a region
whose flood fill reaches the pixel cap entirely (first conjunct: whenever
the fill loop ends with `count = max_size`, the region is `None`); the
structural detector's flood fill, however, stops at the cap but still
reports the truncated region (second conjunct, on the 10001-pixel line). -/
theorem C2_cap_amended :
    (∀ (b : Bitmap) (vis : ℕ) (sx sy : ℤ) (ms : ℕ),
      (fillLoop b false ms (5 * ms + 1) ([(sx, sy)],
        ⟨vis, sx, sx, sy, sy, 0⟩)).2.count = ms →
      (flood_fill_region b vis sx sy ms).1 = none) ∧
    find_filled_rectangles lineBmp
      = [(0, 0, 10000, 1, 1), (10000, 0, 1, 1, 1)] :=
  ⟨fun b vis sx sy ms hc => fill_cap_drop b vis sx sy ms hc, rect_lineBmp⟩

/-- C2, witness for the cap-drop conjunct: on a 1×1 all-background bitmap
with `max_size = 1` the fill reaches the cap and the region is dropped. -/
theorem C2_cap_witness : (flood_fill_region onePx 0 0 0 1).1 = none :=
  C2_cap_amended.1 onePx 0 0 0 1 (by decide)

/-- C4: a wall element's quantity item has quantity = area m² =
`length_m` (default 0) times the configured wall height, in unit m², and its
recorded volume m³ is area times `thickness_m` (default 0.24); the wall of
the spec's scenario (`length_m = 5.0`, `thickness_m = 0.24`, default height
2.75) yields area 13.75 m² and volume 3.30 m³. -/
theorem C4_wall_item (cfg : QuantityCalculator) (e : DetectedElement)
    (pos : ℕ) :
    (cfg.calculate_wall e pos).quantity
        = dget e.dimensions "length_m" 0 * cfg.default_wall_height ∧
    (cfg.calculate_wall e pos).unit = "m²" ∧
    (cfg.calculate_wall e pos).dimensions.lookup "volume_m3"
        = some (py_round
            ((dget e.dimensions "length_m" 0 * cfg.default_wall_height)
              * dget e.dimensions "thickness_m" 0.24) 3) ∧
    ((calcDefaults.calculate [wall5]).items.map
        (fun it => (it.position, it.quantity, it.unit,
          it.dimensions.lookup "area_m2", it.dimensions.lookup "volume_m3")))
      = [(1, 13.75, "m²", some 13.75, some 3.3)] :=
  ⟨rfl, rfl, rfl, by decide⟩

/-- C5: the summary maps each (category, unit) pair to the sum of the
quantities of exactly the items with that category and unit — rounded to two
decimals once, after the summation — and is absent for pairs with no items;
two wall items of 13.75 m² and 6.0 m² under category "Wände" total 19.75. -/
theorem C5_summary_grouping :
    (∀ (items : List QuantityItem) (c u : String),
      sLookup (create_summary items) c u =
        if (items.filter (fun it => it.category == c && it.unit == u)) = []
        then none
        else some (py_round
          (((items.filter (fun it => it.category == c && it.unit == u)).map
            (fun it => it.quantity)).sum) 2)) ∧
    sLookup (calcDefaults.calculate [wall5, wall6]).summary "Wände" "m²"
      = some 19.75 := by
  constructor
  · intro items c u
    rw [sLookup_create_summary, summary_foldl c u items semp]
    by_cases he :
        (items.filter (fun it => it.category == c && it.unit == u)) = []
    · rw [if_pos he, if_pos he]
      rfl
    · rw [if_neg he, if_neg he]
      have h0 : sLookup semp c u = none := rfl
      rw [h0]
      simp
  · decide

/-- C8: every numeric lookup in the per-kind computations of the Quantity
Engine falls back to a default, so `calculate` returns normally for elements
with empty or arbitrary dimensions/properties mappings; the final conjunct
runs the full engine on six elements of the six kinds with empty mappings. -/
theorem C8_defaults_total (cfg : QuantityCalculator) (ty : String)
    (st : Option String) (bb : Option BoundingBox) (conf : ℚ)
    (d : List (String × ℚ)) (p : List (String × String)) (pos : ℕ) :
    (cfg.calculate_wall ⟨ty, st, bb, conf, d, p⟩ pos).quantity
        = dget d "length_m" 0 * cfg.default_wall_height ∧
    (cfg.calculate_window ⟨ty, st, bb, conf, d, p⟩ pos).quantity = 1 ∧
    (cfg.calculate_window ⟨ty, st, bb, conf, d, p⟩ pos).dimensions.lookup "area_m2"
        = some (py_round (dget d "width_m" 1.0 * dget d "height_m" 1.2) 2) ∧
    (cfg.calculate_door ⟨ty, st, bb, conf, d, p⟩ pos).quantity = 1 ∧
    (cfg.calculate_door ⟨ty, st, bb, conf, d, p⟩ pos).dimensions.lookup "area_m2"
        = some (py_round (dget d "width_m" 0.88 * dget d "height_m" 2.01) 2) ∧
    (cfg.calculate_column ⟨ty, st, bb, conf, d, p⟩ pos).quantity
        = (dget d "width_m" 0.3 * dget d "depth_m" 0.3)
            * cfg.default_wall_height ∧
    (cfg.calculate_beam ⟨ty, st, bb, conf, d, p⟩ pos).quantity
        = (0.30 * 0.50) * dget d "length_m" 1.0 ∧
    (cfg.calculate_slab ⟨ty, st, bb, conf, d, p⟩ pos).quantity
        = dget d "area_m2" 0 ∧
    ((calcDefaults.calculate [emptyElem "wall", emptyElem "window",
        emptyElem "door", emptyElem "column", emptyElem "beam",
        emptyElem "slab"]).items.map
      (fun it => (it.position, it.category, it.quantity, it.unit)))
      = [(1, "Wände", 0, "m²"), (2, "Fenster", 1, "Stück"),
         (3, "Türen", 1, "Stück"), (4, "Stützen", 0.2475, "m³"),
         (5, "Unterzüge", 0.15, "m³"), (6, "Decken", 0, "m²")] :=
  ⟨rfl, rfl, rfl, rfl, rfl, rfl, rfl, rfl, by decide⟩

/-- C6: `calculate` emits exactly one quantity item per element of a merged
element list (a list whose element types are among the six kinds), in the
fixed order walls, windows, doors, columns, beams, slabs with the input
order preserved inside each kind, and with positions forming the
consecutive sequence `1, 2, …, n`. -/
theorem C6_item_order (cfg : QuantityCalculator) (es : List DetectedElement)
    (h : ∀ e ∈ es, e.element_type ∈
      (["wall", "window", "door", "column", "beam", "slab"] : List String)) :
    (cfg.calculate es).items = orderedItemsSpec cfg es ∧
    (cfg.calculate es).items.length = es.length ∧
    (cfg.calculate es).items.map (fun it => it.position)
      = List.range' 1 es.length := by
  have hp := length_partition es h
  have hitems : (cfg.calculate es).items = orderedItemsSpec cfg es := by
    unfold QuantityCalculator.calculate orderedItemsSpec
    simp only [calcFor_eq]
    simp [List.append_assoc]
  refine ⟨hitems, ?_, ?_⟩
  · rw [hitems]
    unfold orderedItemsSpec
    simp only [List.length_append, itemsFrom_length]
    omega
  · rw [hitems]
    unfold orderedItemsSpec
    simp only [List.map_append]
    rw [itemsFrom_map_position _ (fun e p => rfl),
      itemsFrom_map_position _ (fun e p => rfl),
      itemsFrom_map_position _ (fun e p => rfl),
      itemsFrom_map_position _ (fun e p => rfl),
      itemsFrom_map_position _ (fun e p => rfl),
      itemsFrom_map_position _ (fun e p => rfl),
      range'_glue6]
    exact congrArg (fun n => List.range' 1 n 1) (by omega)

/-- C6, witness at a two-element list (one wall, one window). -/
theorem C6_item_order_witness :
    (calcDefaults.calculate [wall5, window15]).items
      = orderedItemsSpec calcDefaults [wall5, window15] ∧
    (calcDefaults.calculate [wall5, window15]).items.length = 2 ∧
    (calcDefaults.calculate [wall5, window15]).items.map
      (fun it => it.position) = List.range' 1 2 :=
  C6_item_order calcDefaults [wall5, window15] (by decide)

/-- C7: the wall detector emits one wall element per line-scanner run
exactly as the per-run rule describes — a run becomes a wall iff its
measured thickness reaches `interior_wall_min_thickness`, with subtype
`exterior` exactly at `exterior_wall_min_thickness`, `length_m` =
`max(width, height)` × scale factor, `thickness_m` = thickness × scale
factor, confidence 0.8 — and every run the scanners produce already has
thickness at least `interior_wall_min_thickness` (the filter below changes
nothing), so every scanner run yields a wall element. -/
theorem C7_wall_classification (cfg : WallDetector) (b : Bitmap)
    (sc : List Char)
    (hce : cfg.interior_wall_min_thickness ≤ cfg.exterior_wall_min_thickness) :
    WallDetector.detect cfg b sc
      = (detect_horizontal_lines cfg b 50
          ++ detect_vertical_lines cfg b 50).filterMap
          (wallFromRunSpec cfg (parse_scale sc)) ∧
    (detect_horizontal_lines cfg b 50).filter
        (fun l => cfg.interior_wall_min_thickness ≤ l.2.2.2.2)
      = detect_horizontal_lines cfg b 50 ∧
    (detect_vertical_lines cfg b 50).filter
        (fun l => cfg.interior_wall_min_thickness ≤ l.2.2.2.2)
      = detect_vertical_lines cfg b 50 := by
  refine ⟨?_, ?_, ?_⟩
  · unfold WallDetector.detect
    apply List.filterMap_congr
    intro l _
    exact classify_eq_spec cfg (parse_scale sc) hce l
  · exact List.filter_eq_self.mpr (fun l hl =>
      decide_eq_true (detect_horizontal_lines_thick cfg b 50 l hl))
  · exact List.filter_eq_self.mpr (fun l hl =>
      decide_eq_true (detect_vertical_lines_thick cfg b 50 l hl))

/-- C7, witness at the default thresholds on a 1×1 bitmap. -/
theorem C7_wall_classification_witness :
    WallDetector.detect wallDefaults onePx (chars "1:100")
      = (detect_horizontal_lines wallDefaults onePx 50
          ++ detect_vertical_lines wallDefaults onePx 50).filterMap
          (wallFromRunSpec wallDefaults (parse_scale (chars "1:100"))) :=
  (C7_wall_classification wallDefaults onePx (chars "1:100") (by decide)).1

/-- C10: `calculate_wall_area` equals the wall-length total times the wall
height, minus the opening areas when deduction is enabled and openings are
given, clamped at zero before the 2-decimal rounding — hence never
negative, even when the openings' area exceeds the walls' area (concrete
final conjunct). -/
theorem C10_wall_area_nonneg (cfg : QuantityCalculator)
    (walls : List DetectedElement) (ded : Bool)
    (ops : Option (List DetectedElement)) :
    cfg.calculate_wall_area walls ded ops =
      py_round (max 0
        ((walls.map (fun w => dget w.dimensions "length_m" 0
            * cfg.default_wall_height)).sum -
          (if ded && openingsTruthy ops then
            ((ops.getD []).map (fun o => dget o.dimensions "width_m" 0
              * dget o.dimensions "height_m" 0)).sum
          else 0))) 2 ∧
    0 ≤ cfg.calculate_wall_area walls ded ops ∧
    calcDefaults.calculate_wall_area [wall5] true (some [bigDoor]) = 0 := by
  refine ⟨?_, ?_, by decide⟩
  · simp only [QuantityCalculator.calculate_wall_area]
    rw [foldl_add_sum (fun w => dget w.dimensions "length_m" 0
      * cfg.default_wall_height) walls 0]
    by_cases hc : (ded && openingsTruthy ops) = true
    · rw [if_pos hc, if_pos hc,
        foldl_sub_sum (fun o => dget o.dimensions "width_m" 0
          * dget o.dimensions "height_m" 0) (ops.getD []) _]
      congr 2
      ring
    · rw [if_neg hc, if_neg hc]
      congr 2
      ring
  · simp only [QuantityCalculator.calculate_wall_area]
    exact py_round_nonneg (le_max_left 0 _) 2

end Aufmass
